import Mathlib

/-! # GiftSeeker: the session engine of `src/app/seeker/core.js`

A shallow embedding of the `Seeker` class: its fields become a record, every
method becomes a function on that record, and the things the class does to
the outside world (events emitted on its `EventEmitter`, HTTP requests,
adapter calls, the reconnect `setTimeout`) are recorded in explicit state.

Modelling conventions

* An `async` method is modelled by its complete run: the value an awaited
  call resolves to is an argument of the function (`HttpResult`,
  `Option UserInfo`) and no other engine method interleaves at an `await`.
* JavaScript values that reach a truthiness test or a `===` are kept as
  `JsVal`; numbers are exact integers, and `NaN` is `none` where a
  computation can produce it.
* `language.get key` is an external lookup: a `log` event records the key.
* The seek cycle of the example adapter (`src/core/services/opiumpulses.js`)
  is embedded as the list of acts it performs, the answers of `isStarted()`
  and the outcomes of its requests being arguments.
-/

namespace GiftSeeker

/-! ## JavaScript values -/

/-- The JavaScript values the engine tests or compares. -/
inductive JsVal where
  | undefined
  | null
  | bool (b : Bool)
  | num (n : Int)
  | str (s : String)
  deriving DecidableEq, Repr

/-- The truthiness of a value, as used by `if (v)`, `v ? a : b`, `!v`. -/
def JsVal.truthy : JsVal → Bool
  | .undefined => false
  | .null => false
  | .bool b => b
  | .num n => n != 0
  | .str s => s != ""

/-- The operator `===` (no `NaN` among these values, so it is equality of
type and payload). -/
def JsVal.strictEq (a b : JsVal) : Bool :=
  a == b

/-- The operator `a && b`: `a` when `a` is falsy, otherwise `b`. -/
def JsVal.and (a b : JsVal) : JsVal :=
  if a.truthy then b else a

/-- The operator `a || b`: `a` when `a` is truthy, otherwise `b`. -/
def JsVal.or (a b : JsVal) : JsVal :=
  if a.truthy then a else b

/-- The operator `a % b` on integers: the remainder has the sign of the
dividend, and `a % 0` is `NaN` (`none`), as is a remainder by `NaN`. -/
def jsRem (a : Int) (b : Option Int) : Option Int :=
  match b with
  | none => none
  | some m => if m = 0 then none else some (Int.tmod a m)

/-- The first index at which `needle` starts in `hay`, counting from `i`;
`-1` when it occurs nowhere. -/
def indexOfFrom (needle : List Char) : List Char → Nat → Int
  | [], i => if needle.isPrefixOf [] then (i : Int) else -1
  | c :: cs, i =>
    if needle.isPrefixOf (c :: cs) then (i : Int) else indexOfFrom needle cs (i + 1)

/-- The method `String.prototype.indexOf(needle)`. -/
def indexOf (hay needle : String) : Int :=
  indexOfFrom needle.toList hay.toList 0

/-! ## Data model -/

/-- Modelled from the spec: the module `./states` is not among the sources;
the spec lists the four lifecycle states (`Paused`, `Busy`, `Started`,
`Error`), named here as `core.js` names them. -/
inductive State where
  | PAUSED
  | PROCESS
  | STARTED
  | ERROR
  deriving DecidableEq, Repr

/-- The record a profile fetch yields. -/
structure UserInfo where
  avatar : String
  username : String
  value : JsVal
  deriving DecidableEq, Repr

/-- The events emitted on `this.events`, with their payload. -/
inductive Event where
  /-- The event `"state.changed"`. -/
  | stateChanged (state : State)
  /-- The event `"tick"`. -/
  | tick (totalTicks : Int)
  /-- The event `"userinfo.updated"`. -/
  | userinfoUpdated (info : UserInfo)
  /-- The event `"value.changed"`. -/
  | valueChanged (value : JsVal)
  /-- The event `"log"` with payload `{ text, type }`; `key` is the
  translation key whose text was looked up, `type` is `true` for an
  error-flagged entry and `undefined` otherwise. -/
  | log (key : String) (type : JsVal)
  deriving DecidableEq, Repr

/-- The three places of `core.js` that call `authCheck()`. -/
inductive CallSite where
  | start
  | updateUserInfo
  | serviceActions
  deriving DecidableEq, Repr

/-- What the engine does to the outside world, in order of occurrence. -/
inductive Effect where
  /-- The call `this.events.emit(...)`. -/
  | emit (e : Event)
  /-- The request `this.http.get(this.websiteUrl)` of an `authCheck()` called
  from `site`. -/
  | authCheck (site : CallSite)
  /-- The adapter call `this.getUserInfo()`. -/
  | getUserInfo
  /-- The adapter call `this.seekService()`. -/
  | seekService
  deriving DecidableEq, Repr

/-- How an HTTP request ends: the promise resolves with a body, or it is
rejected with an error whose `status` property is some value. -/
inductive HttpResult where
  | resolved (data : String)
  | rejected (status : JsVal)
  deriving DecidableEq, Repr

/-- A pending `setTimeout` of `runReconnectTimeout`; its callback is always
`() => this.start(true)`. -/
structure Timer where
  id : Nat
  delay : Nat
  deriving DecidableEq, Repr

/-- One entry of `this.settings`. -/
structure Setting where
  min : Int
  max : Int
  default : Option Int
  deriving DecidableEq, Repr

/-- The object `this.settings` built by the constructor. -/
structure SettingsSchema where
  timer : Setting
  interval_from : Setting
  interval_to : Setting
  pages : Option Setting
  deriving DecidableEq, Repr

/-- The configuration store behind `require("../settings")`: the stored
numbers by key. -/
abbrev Settings := List (String × Int)

/-- Modelled from the spec: the module `../settings` is not among the
sources; `get(key, default)` yields the stored value, falling back to the
default (`none` is `undefined`). -/
def Settings.get (cfg : Settings) (key : String) (d : Option Int) : Option Int :=
  match cfg.lookup key with
  | some v => some v
  | none => d

/-- The construction parameters read by the constructor. -/
structure Params where
  withValue : JsVal
  domain : String
  websiteUrl : String
  authPageUrl : String
  winsPageUrl : String
  authContent : String
  deriving DecidableEq, Repr

/-- An engine instance: the fields of the class, then the explicit
environment (`trace`: the effects so far, oldest first; `pending`: the
reconnect timeouts that are scheduled and have neither fired nor been
cleared; `nextTimer`: the handle the next `setTimeout` returns). The field
`updateUserInterval` is the constant of that name below. -/
structure Seeker where
  name : String
  withValue : JsVal
  domain : String
  websiteUrl : String
  authPageUrl : String
  winsPageUrl : String
  authContent : String
  settings : SettingsSchema
  totalTicks : Int
  currentValue : Option Int
  reconnectTimeout : Option Nat
  state : State
  trace : List Effect
  pending : List Timer
  nextTimer : Nat
  deriving DecidableEq, Repr

/-! ## Methods of `Seeker` -/

/-- The class field `updateUserInterval = 300`; nothing assigns it again. -/
def updateUserInterval : Int := 300

/-- Append one effect to the trace. -/
def record (e : Effect) (s : Seeker) : Seeker :=
  { s with trace := s.trace ++ [e] }

/-- The call `this.events.emit(name, payload)`. -/
def emit (e : Event) (s : Seeker) : Seeker :=
  record (.emit e) s

/-- The method `getConfig(key, def)`. -/
def getConfig (cfg : Settings) (name : String) (schema : Option SettingsSchema)
    (key : String) (d : Option Int) : Option Int :=
  let fromSchema : Option Setting :=
    match schema with
    | none => none
    | some sch =>
      if key = "timer" then some sch.timer
      else if key = "interval_from" then some sch.interval_from
      else if key = "interval_to" then some sch.interval_to
      else if key = "pages" then sch.pages
      else none
  let d :=
    match d, fromSchema with
    | none, some st => st.default
    | _, _ => d
  Settings.get cfg (name.toLower ++ "_" ++ key) d

/-- The constructor together with the class field initialisers; `name` is
`this.constructor.name` and `cfg` the configuration store at that moment. -/
def Seeker.new (cfg : Settings) (name : String) (params : Params) : Seeker :=
  { name := name
    withValue := JsVal.or params.withValue (.bool true)
    domain := params.domain
    websiteUrl := params.websiteUrl
    authPageUrl := params.authPageUrl
    winsPageUrl := params.winsPageUrl
    authContent := params.authContent
    settings :=
      { timer := ⟨5, 60, getConfig cfg name none "timer" (some 10)⟩
        interval_from := ⟨0, 60, getConfig cfg name none "interval_from" (some 3)⟩
        interval_to := ⟨3, 60, getConfig cfg name none "interval_to" (some 5)⟩
        pages := some ⟨1, 10, getConfig cfg name none "pages" (some 1)⟩ }
    totalTicks := 0
    currentValue := some 0
    reconnectTimeout := none
    state := .PAUSED
    trace := []
    pending := []
    nextTimer := 0 }

/-- The method `authCheck()`, called from `site`, when its request ends as
`resp`. -/
def authCheck (site : CallSite) (resp : HttpResult) (s : Seeker) : Int × Seeker :=
  let s1 := record (.authCheck site) s
  match resp with
  | .resolved data => (if indexOf data s.authContent ≥ 0 then 1 else 0, s1)
  | .rejected status => (if JsVal.strictEq status (.num 200) then 0 else -1, s1)

/-- The method `log(text, type)` with `text = language.get(key)`. -/
def log (key : String) (type : JsVal) (s : Seeker) : Seeker :=
  emit (.log key type) s

/-- The method `setState(state)`. -/
def setState (state : State) (s : Seeker) : Seeker :=
  if s.state = state then s
  else { emit (.stateChanged state) s with state := state }

/-- The method `isStarted()`. -/
def isStarted (s : Seeker) : Bool :=
  s.state = .STARTED

/-- The call `clearTimeout(handle)` on the pending reconnect timeouts. -/
def clearTimeout (handle : Option Nat) (pending : List Timer) : List Timer :=
  pending.filter (fun t => some t.id != handle)

/-- The method `runReconnectTimeout()`. -/
def runReconnectTimeout (s : Seeker) : Seeker :=
  let s1 := log "service.reconnect_in_5_min" .undefined s
  let s2 := { s1 with pending := clearTimeout s1.reconnectTimeout s1.pending }
  { s2 with
    reconnectTimeout := some s2.nextTimer
    pending := s2.pending ++ [⟨s2.nextTimer, 300000⟩]
    nextTimer := s2.nextTimer + 1 }

/-- The method `setStateStarted()`. -/
def setStateStarted (s : Seeker) : Seeker :=
  let s1 := { s with totalTicks := 0 }
  let s2 := setState .STARTED s1
  log "service.started" .undefined s2

/-- The method `start(autostart)`, when the request of its auth check ends
as `resp`. The `switch (authState)` compares `authState` with each `case`
expression by `===`, in order. -/
def start (autostart : JsVal) (resp : HttpResult) (s : Seeker) : JsVal × Seeker :=
  if isStarted s then (.bool false, s)
  else
    let s1 := setState .PROCESS s
    let (authState, s2) := authCheck .start resp s1
    let s3 :=
      if JsVal.strictEq (.num authState) (.num 1) then
        setStateStarted s2
      else if JsVal.strictEq (.num authState)
          (JsVal.and (.bool (authState == 0)) autostart) then
        log "service.cant_start" (.bool true) (setState .ERROR s2)
      else if JsVal.strictEq (.num authState) (.num (-1)) then
        let s4 := log "service.connection_error" (.bool true) (setState .ERROR s2)
        if autostart.truthy then runReconnectTimeout s4 else s4
      else s2
    (.num authState, s3)

/-- The method `stop(withError, reconnect)`. -/
def stop (withError reconnect : JsVal) (s : Seeker) : JsVal × Seeker :=
  let state := if withError.truthy then State.ERROR else State.PAUSED
  if !isStarted s then (.bool false, s)
  else
    let s1 := setState state s
    let s2 := log "service.stopped" .undefined s1
    let s3 := if reconnect.truthy then runReconnectTimeout s2 else s2
    (.undefined, s3)

/-- The value of one digit in the given radix, if `c` is such a digit. -/
def digitOf (radix : Nat) (c : Char) : Option Nat :=
  let v : Option Nat :=
    if c.isDigit then some (c.toNat - 48)
    else if c.isLower then some (c.toNat - 87)
    else if c.isUpper then some (c.toNat - 55)
    else none
  v.filter (fun d => d < radix)

/-- The number spelled by the longest prefix of digits; `acc` is `none` until
a first digit has been read. -/
def parseDigits (radix : Nat) : List Char → Option Nat → Option Nat
  | [], acc => acc
  | c :: cs, acc =>
    match digitOf radix c with
    | some d => parseDigits radix cs (some (acc.getD 0 * radix + d))
    | none => acc

/-- The function `parseInt(v)` with no radix argument: on a string, leading
white space, an optional sign, an optional `0x`, then the longest prefix of
digits; `NaN` (`none`) when there is no digit. A number is an integer here
and is returned as it is; the other values spell no digit. -/
def parseInt (v : JsVal) : Option Int :=
  match v with
  | .num n => some n
  | .str s =>
    let cs := s.toList.dropWhile Char.isWhitespace
    let signed : Bool × List Char :=
      match cs with
      | '-' :: r => (true, r)
      | '+' :: r => (false, r)
      | _ => (false, cs)
    let based : Nat × List Char :=
      match signed.2 with
      | '0' :: 'x' :: r => (16, r)
      | '0' :: 'X' :: r => (16, r)
      | _ => (10, signed.2)
    match parseDigits based.1 based.2 none with
    | none => none
    | some n => some (if signed.1 then -(n : Int) else (n : Int))
  | _ => none

/-- The method `setValue(new_value)`. -/
def setValue (new_value : JsVal) (s : Seeker) : Seeker :=
  if !s.withValue.truthy then s
  else { emit (.valueChanged new_value) s with currentValue := parseInt new_value }

/-- The method `updateUserInfo()`, when the request of its auth check ends as
`resp` and the adapter's `getUserInfo()` resolves with `fetched` (`none`: it
is rejected). -/
def updateUserInfo (resp : HttpResult) (fetched : Option UserInfo) (s : Seeker) : Seeker :=
  let (authState, s1) := authCheck .updateUserInfo resp s
  if authState = 1 then
    let s2 := record .getUserInfo s1
    let userInfo : UserInfo :=
      match fetched with
      | some info => info
      | none =>
        { avatar := s2.websiteUrl ++ "/favicon.ico"
          username := s2.name ++ " user"
          value := .num 0 }
    let s3 := emit (.userinfoUpdated userInfo) s2
    setValue userInfo.value s3
  else s1

/-- The method `workerInterval()`. -/
def workerInterval (cfg : Settings) (s : Seeker) : Option Int :=
  (getConfig cfg s.name (some s.settings) "timer" (some 10)).map (fun t => t * 60)

/-- What the outside world answers during one tick: the result of the
profile refresh's auth check, of the adapter's profile fetch, and of the
seek cadence's auth check (each is read only if the call is made). -/
structure TickEnv where
  userAuth : HttpResult
  userInfo : Option UserInfo
  seekAuth : HttpResult
  deriving DecidableEq, Repr

/-- The method `serviceActions(currentTick, serviceStarted)`. -/
def serviceActions (cfg : Settings) (env : TickEnv) (currentTick : Int)
    (serviceStarted : Bool) (s : Seeker) : Seeker :=
  let s1 :=
    if jsRem currentTick (some updateUserInterval) = some 0 then
      updateUserInfo env.userAuth env.userInfo s
    else s
  if serviceStarted then
    if jsRem currentTick (workerInterval cfg s1) = some 0 then
      let (authState, s2) := authCheck .serviceActions env.seekAuth s1
      if authState = 1 then
        record .seekService s2
      else if authState = 0 then
        (stop (.bool true) .undefined
          (log "service.session_expired" (.bool true) s2)).2
      else if authState = -1 then
        (stop (.bool true) (.bool true)
          (log "service.connection_lost" (.bool true) s2)).2
      else s2
    else s1
  else s1

/-- The counter update of the worker: `totalTicks < 32760 ? totalTicks + 1 : 0`. -/
def nextTicks (totalTicks : Int) : Int :=
  if totalTicks < 32760 then totalTicks + 1 else 0

/-- One run of the interval callback of `runWorker()`. The callback calls
`serviceActions(this.totalTicks, this.isStarted())` without awaiting it;
`serviceActions` emits nothing before its first `await`, so the counter
update and the `tick` event come first and the effects of `serviceActions`
follow them. -/
def tick (cfg : Settings) (env : TickEnv) (s : Seeker) : Seeker :=
  let currentTick := s.totalTicks
  let serviceStarted := isStarted s
  let s1 := { s with totalTicks := nextTicks s.totalTicks }
  let s2 := emit (.tick s1.totalTicks) s1
  serviceActions cfg env currentTick serviceStarted s2

/-- The firing of the pending reconnect timeout `id`: it leaves the pending
set and its callback `() => this.start(true)` runs. -/
def fireReconnect (id : Nat) (resp : HttpResult) (s : Seeker) : Seeker :=
  if s.pending.any (fun t => t.id == id) then
    (start (.bool true) resp { s with pending := s.pending.filter (fun t => t.id != id) }).2
  else s

/-- A run of the worker: one tick per entry of `envs`, in order. -/
def runTicks (cfg : Settings) (envs : List TickEnv) (s : Seeker) : Seeker :=
  envs.foldl (fun acc env => tick cfg env acc) s

/-- One step of an engine's life: a call of a method from outside, a run of
the worker's interval callback, or the firing of a reconnect timeout, each
with what the outside world answers during it. -/
inductive Op where
  | start (autostart : JsVal) (resp : HttpResult)
  | stop (withError reconnect : JsVal)
  | setState (state : State)
  | tick (cfg : Settings) (env : TickEnv)
  | fire (id : Nat) (resp : HttpResult)
  deriving DecidableEq, Repr

/-- The engine after one step. -/
def Op.apply (op : Op) (s : Seeker) : Seeker :=
  match op with
  | .start autostart resp => (GiftSeeker.start autostart resp s).2
  | .stop withError reconnect => (GiftSeeker.stop withError reconnect s).2
  | .setState state => GiftSeeker.setState state s
  | .tick cfg env => GiftSeeker.tick cfg env s
  | .fire id resp => fireReconnect id resp s

/-- The engine after a sequence of steps, in order. -/
def runOps (ops : List Op) (s : Seeker) : Seeker :=
  ops.foldl (fun acc op => op.apply acc) s

/-- How many profile refreshes the trace records: the auth checks made by
`updateUserInfo()`. -/
def refreshes (s : Seeker) : Nat :=
  s.trace.count (.authCheck .updateUserInfo)

/-- How many seek-cadence auth checks the trace records: the auth checks
made by `serviceActions()` itself. -/
def seekChecks (s : Seeker) : Nat :=
  s.trace.count (.authCheck .serviceActions)

/-- Every pending reconnect timeout is the one `this.reconnectTimeout` holds. -/
def TimersOwned (s : Seeker) : Prop :=
  ∀ t ∈ s.pending, s.reconnectTimeout = some t.id

instance (s : Seeker) : Decidable (TimersOwned s) := by
  unfold TimersOwned; infer_instance

/-- An engine for the examples: a fresh `Seeker` over an empty configuration
store. -/
def demo : Seeker :=
  Seeker.new [] "Seeker"
    { withValue := .undefined
      domain := "example.org"
      websiteUrl := "https://example.org"
      authPageUrl := "https://example.org/login"
      winsPageUrl := "https://example.org/wins"
      authContent := "/logout" }

/-- An engine in state `PROCESS` (Busy), for the examples: the fresh engine
after a `start(false)` whose auth check yielded `0`. -/
def busyDemo : Seeker :=
  (start (.bool false) (.resolved "<a href=/login>") demo).2

/-- An engine in state `STARTED`, for the examples: the fresh engine after a
`start(false)` whose auth check yielded `1`. -/
def startedDemo : Seeker :=
  (start (.bool false) (.resolved "<a href=/logout>") demo).2

/-- No `tick` event occurs among these effects. -/
def NoTick (l : List Effect) : Prop :=
  ∀ n, Effect.emit (.tick n) ∉ l

/-- The trace of `s2` is the trace of `s1` followed by effects without a `tick` event. -/
def Quiet (s1 s2 : Seeker) : Prop :=
  ∃ rest, s2.trace = s1.trace ++ rest ∧ NoTick rest

/-- A tick environment in which every request fails, for the examples. -/
def idleEnv : TickEnv :=
  { userAuth := .rejected .undefined
    userInfo := none
    seekAuth := .rejected .undefined }

/-- An engine whose counter stands at the wrap value 32760. -/
def lastTickDemo : Seeker :=
  { demo with totalTicks := 32760 }

/-- The engine after the first `n` ticks of a worker run from `s`, the
outside world answering `envAt k` during tick `k`. -/
def runFor (cfg : Settings) (envAt : Nat → TickEnv) (n : Nat) (s : Seeker) : Seeker :=
  runTicks cfg ((List.range n).map envAt) s

/-- The engine after the synchronous part of a tick (counter update, `tick`
event) and the profile-refresh part of `serviceActions`, that is, as the
seek-cadence part of `serviceActions` finds it. -/
def afterRefresh (env : TickEnv) (s : Seeker) : Seeker :=
  if jsRem s.totalTicks (some updateUserInterval) = some 0 then
    updateUserInfo env.userAuth env.userInfo
      (emit (.tick (nextTicks s.totalTicks)) { s with totalTicks := nextTicks s.totalTicks })
  else
    emit (.tick (nextTicks s.totalTicks)) { s with totalTicks := nextTicks s.totalTicks }

/-- The engine `s2` differs from `s` at most in the counter, the trace and
`currentValue`. -/
def SameCore (s s2 : Seeker) : Prop :=
  s2.state = s.state ∧ s2.pending = s.pending ∧
  s2.reconnectTimeout = s.reconnectTimeout ∧ s2.nextTimer = s.nextTimer ∧
  s2.name = s.name ∧ s2.settings = s.settings ∧ s2.authContent = s.authContent ∧
  s2.withValue = s.withValue ∧ s2.websiteUrl = s.websiteUrl

/-- The info a profile refresh publishes: what the adapter fetched, or the
default built by the `catch` of `updateUserInfo`. -/
def fetchedOrDefault (fetched : Option UserInfo) (s : Seeker) : UserInfo :=
  match fetched with
  | some info => info
  | none =>
    { avatar := s.websiteUrl ++ "/favicon.ico"
      username := s.name ++ " user"
      value := .num 0 }

/-- An environment in which the seek cadence auth check yields `0`. -/
def expiredEnv : TickEnv :=
  { userAuth := .resolved "<a href=/login>"
    userInfo := none
    seekAuth := .resolved "<a href=/login>" }

/-- The method `entryInterval()`; `random` is the number `Math.random()`
returns, taken as the rational it is, and the product is exact. The result is
`none` (`NaN`) when a bound is `undefined`. -/
def entryInterval (cfg : Settings) (random : ℚ) (s : Seeker) : Option Int :=
  let min := getConfig cfg s.name (some s.settings) "interval_from"
    s.settings.interval_from.default
  let max := (getConfig cfg s.name (some s.settings) "interval_to"
    s.settings.interval_to.default).map (fun t => t + 1)
  match min, max with
  | some mn, some mx => some ((⌊random * ((mx - mn : Int) : ℚ)⌋ + mn) * 1000)
  | _, _ => none

/-- The spec's "response body contains `authContent`": the marker occurs in the
body as a contiguous run of characters. -/
def ContainsMarker (body marker : String) : Prop :=
  ∃ before after : List Char, body.toList = before ++ marker.toList ++ after

/-- The engine `s2` has the `currentValue` and the `withValue` of `s`. -/
def KeepsValue (s s2 : Seeker) : Prop :=
  s2.currentValue = s.currentValue ∧ s2.withValue = s.withValue

/-- An engine that has fetched a profile with value 42, for the examples: the
fresh engine after a profile refresh whose auth check yielded `1`. -/
def valueDemo : Seeker :=
  updateUserInfo (.resolved "<a href=/logout>")
    (some { avatar := "/img/a.png", username := "alice", value := .num 42 }) demo

/-- An environment in which the profile refresh is authenticated and the
profile fetch of the adapter is rejected. -/
def fallbackEnv : TickEnv :=
  { userAuth := .resolved "<a href=/logout>"
    userInfo := none
    seekAuth := .resolved "<a href=/logout>" }

/-- The reconnect timeouts are in order: every pending one is the stored one,
at most one is pending, and every pending handle is older than the next
handle `setTimeout` returns. -/
def TimerInv (s : Seeker) : Prop :=
  TimersOwned s ∧ s.pending.length ≤ 1 ∧ ∀ t ∈ s.pending, t.id < s.nextTimer

/-! ## The example adapter: `OpiumPulses.seekService` -/

/-- A giveaway as `parseGiveaway` returns it; `cost` is `Number` of a string
of digits, `code` is `url.split("/")[2]` (`none`: `undefined`), `checkUser`
is `false` or a string of digits. -/
structure Giveaway where
  name : String
  url : String
  cost : Int
  free : Bool
  code : Option String
  entered : Bool
  checkUser : JsVal
  deriving DecidableEq, Repr

/-- What a seek cycle does, in order: the calls of `this.isStarted()` with
their answer, the requests sent through `this.http`, the log entries and the
awaited `this.entryInterval()`. -/
inductive SeekAct where
  /-- A call of `this.isStarted()` and what it answered. -/
  | isStarted (answer : Bool)
  /-- A request `this.http.get(url)` of `setGiveawaysFilter` or of the
  giveaway list. -/
  | httpGet (url : String)
  /-- The request of `enterGiveaway`: the cookie `checkUser` is set, then
  `this.http.get(url)` is sent. -/
  | enter (url : String) (checkUser : JsVal)
  /-- The log entry "entered in" with its anchor and link. -/
  | log (anchor : String) (url : String)
  /-- The awaited `this.entryInterval()`. -/
  | entryInterval
  deriving DecidableEq, Repr

/-- The acts that send an HTTP request. -/
def SeekAct.isRequest : SeekAct → Bool
  | .httpGet _ => true
  | .enter _ _ => true
  | _ => false

/-- The `for` loop of `seekService` over the giveaways left to visit;
`started k` is the answer of the `k`-th call of `isStarted()` and `entered k`
whether the `k`-th enter request reports success, counting from `k`. -/
def seekLoop (websiteUrl : String) (started entered : Nat → Bool) :
    List Giveaway → Nat → List SeekAct
  | [], _ => []
  | giveaway :: rest, k =>
    .isStarted (started k) ::
      (if !started k then []
      else
        .enter (websiteUrl ++ "/giveaways/enter/" ++ giveaway.code.getD "undefined")
            giveaway.checkUser ::
          ((if entered k then [SeekAct.log giveaway.name (websiteUrl ++ giveaway.url)]
            else []) ++
            .entryInterval :: seekLoop websiteUrl started entered rest (k + 1)))

/-- The method `OpiumPulses.seekService()`: `filterOk` tells whether the filter
request resolves, `page` is the parsed list of the giveaways page (`none`: the
request is rejected); a rejected request ends the cycle. -/
def seekService (websiteUrl : String) (filterOk : Bool) (page : Option (List Giveaway))
    (started entered : Nat → Bool) : List SeekAct :=
  .httpGet (websiteUrl ++ "/giveaway/filterGiveaways") ::
    (if !filterOk then []
    else
      .httpGet (websiteUrl ++ "/giveaways") ::
        (match page with
        | none => []
        | some parsed =>
          seekLoop websiteUrl started entered
            (parsed.filter (fun ga => !ga.entered && ga.cost == 0)) 0))

/-- A free giveaway not yet entered, for the examples. -/
def freeGiveaway : Giveaway :=
  { name := "Game"
    url := "/giveaways/game-1"
    cost := 0
    free := true
    code := some "game-1"
    entered := false
    checkUser := .str "7" }

/-- In this run of acts every request directly follows a call of
`isStarted()` that answered `true`, and nothing follows a call of
`isStarted()` that answered `false`. -/
def Checked (acts : List SeekAct) : Prop :=
  (∀ before req after, acts = before ++ req :: after → req.isRequest = true →
    ∃ earlier, before = earlier ++ [.isStarted true]) ∧
  (∀ before after, acts = before ++ .isStarted false :: after → after = [])

/-- In this run of acts every enter request directly follows a call of
`isStarted()` that answered `true`, and nothing follows a call of
`isStarted()` that answered `false`. -/
def EnterChecked (acts : List SeekAct) : Prop :=
  (∀ before url checkUser after, acts = before ++ .enter url checkUser :: after →
    ∃ earlier, before = earlier ++ [.isStarted true]) ∧
  (∀ before after, acts = before ++ .isStarted false :: after → after = [])

/-! ## Auxiliary facts -/

/-- An auth check records its request and does nothing else to the engine. -/
theorem authCheck_snd (site : CallSite) (resp : HttpResult) (s : Seeker) :
    (authCheck site resp s).2 = record (.authCheck site) s := by
  cases resp <;> rfl

/-- The result of an auth check does not depend on the lifecycle state. -/
theorem authCheck_fst_setState (site : CallSite) (resp : HttpResult) (st : State)
    (s : Seeker) :
    (authCheck site resp (setState st s)).1 = (authCheck site resp s).1 := by
  unfold setState
  split
  · rfl
  · cases resp <;> rfl

/-- An auth check yields `1`, `0` or `-1`. -/
theorem authCheck_range (site : CallSite) (resp : HttpResult) (s : Seeker) :
    (authCheck site resp s).1 = 1 ∨ (authCheck site resp s).1 = 0 ∨
      (authCheck site resp s).1 = -1 := by
  cases resp <;> simp only [authCheck] <;> split <;> simp

/-- The body of `start` once its guard has let the call through: the second
`case` is taken exactly when `authState` is `0` and `autostart` is the
number `0`. -/
theorem start_of_not_started (autostart : JsVal) (resp : HttpResult) (s : Seeker)
    (hs : s.state ≠ .STARTED) :
    start autostart resp s =
      (.num (authCheck .start resp s).1,
        if (authCheck .start resp s).1 = 1 then
          setStateStarted (record (.authCheck .start) (setState .PROCESS s))
        else if (authCheck .start resp s).1 = 0 ∧ autostart = .num 0 then
          log "service.cant_start" (.bool true)
            (setState .ERROR (record (.authCheck .start) (setState .PROCESS s)))
        else if (authCheck .start resp s).1 = -1 then
          if autostart.truthy then
            runReconnectTimeout (log "service.connection_error" (.bool true)
              (setState .ERROR (record (.authCheck .start) (setState .PROCESS s))))
          else
            log "service.connection_error" (.bool true)
              (setState .ERROR (record (.authCheck .start) (setState .PROCESS s)))
        else record (.authCheck .start) (setState .PROCESS s)) := by
  have h1 : isStarted s = false := by simp [isStarted, hs]
  rcases authCheck_range .start resp s with h | h | h
  all_goals
    simp [start, h1, authCheck_snd, authCheck_fst_setState, h, JsVal.strictEq,
      JsVal.and, JsVal.truthy]
  by_cases hA : autostart = .num 0
  · simp [hA]
  · have hA' : ¬ JsVal.num 0 = autostart := fun e => hA e.symm
    simp [hA, hA']

theorem Quiet.refl (s : Seeker) : Quiet s s :=
  ⟨[], by simp, by simp [NoTick]⟩

theorem Quiet.trans {a b c : Seeker} (h1 : Quiet a b) (h2 : Quiet b c) : Quiet a c := by
  obtain ⟨r1, e1, n1⟩ := h1
  obtain ⟨r2, e2, n2⟩ := h2
  refine ⟨r1 ++ r2, by rw [e2, e1, List.append_assoc], ?_⟩
  intro n hn
  rcases List.mem_append.mp hn with h | h
  · exact n1 n h
  · exact n2 n h

theorem quiet_record (e : Effect) (s : Seeker) (he : ∀ n, e ≠ .emit (.tick n)) :
    Quiet s (record e s) :=
  ⟨[e], rfl, by intro n hn; simp at hn; exact he n hn.symm⟩

theorem quiet_log (key : String) (type : JsVal) (s : Seeker) : Quiet s (log key type s) :=
  quiet_record _ s (by intro n h; cases h)

theorem quiet_setState (st : State) (s : Seeker) : Quiet s (setState st s) := by
  unfold setState
  split
  · exact Quiet.refl s
  · exact ⟨[.emit (.stateChanged st)], rfl, by intro n hn; simp at hn⟩

theorem quiet_runReconnectTimeout (s : Seeker) : Quiet s (runReconnectTimeout s) :=
  ⟨[.emit (.log "service.reconnect_in_5_min" .undefined)], rfl, by intro n hn; simp at hn⟩

theorem quiet_authCheck (site : CallSite) (resp : HttpResult) (s : Seeker) :
    Quiet s (authCheck site resp s).2 := by
  rw [authCheck_snd]
  exact quiet_record _ s (by intro n h; cases h)

/-- The engine after `stop`, by cases on the guard and on `reconnect`. -/
theorem stop_snd (w r : JsVal) (s : Seeker) :
    (stop w r s).2 =
      if s.state = .STARTED then
        if r.truthy then
          runReconnectTimeout (log "service.stopped" .undefined
            (setState (if w.truthy then State.ERROR else State.PAUSED) s))
        else
          log "service.stopped" .undefined
            (setState (if w.truthy then State.ERROR else State.PAUSED) s)
      else s := by
  by_cases hs : s.state = .STARTED <;> by_cases hr : r.truthy = true <;>
    simp [stop, isStarted, hs, hr]

theorem quiet_stop (w r : JsVal) (s : Seeker) : Quiet s (stop w r s).2 := by
  rw [stop_snd]
  by_cases hs : s.state = .STARTED
  · by_cases hr : r.truthy = true
    · simp only [hs, hr, if_true]
      exact ((quiet_setState _ s).trans (quiet_log _ _ _)).trans (quiet_runReconnectTimeout _)
    · simp only [hs, hr, if_true]
      exact (quiet_setState _ s).trans (quiet_log _ _ _)
  · simp only [hs, if_false]
    exact Quiet.refl s

theorem quiet_setStateStarted (s : Seeker) : Quiet s (setStateStarted s) := by
  have h := (quiet_setState .STARTED { s with totalTicks := 0 }).trans
    (quiet_log "service.started" .undefined _)
  exact h

theorem quiet_start (a : JsVal) (resp : HttpResult) (s : Seeker) :
    Quiet s (start a resp s).2 := by
  by_cases hs : s.state = .STARTED
  · simp only [start, isStarted, hs, decide_True, if_true]
    exact Quiet.refl s
  · rw [start_of_not_started a resp s hs]
    have h2 : Quiet s (record (.authCheck .start) (setState .PROCESS s)) :=
      (quiet_setState _ s).trans (quiet_record _ _ (by intro n h; cases h))
    have h4 : Quiet s (log "service.connection_error" (.bool true)
        (setState .ERROR (record (.authCheck .start) (setState .PROCESS s)))) :=
      (h2.trans (quiet_setState _ _)).trans (quiet_log _ _ _)
    dsimp only
    split_ifs
    · exact h2.trans (quiet_setStateStarted _)
    · exact (h2.trans (quiet_setState _ _)).trans (quiet_log _ _ _)
    · exact h4.trans (quiet_runReconnectTimeout _)
    · exact h4
    · exact h2

theorem quiet_setValue (v : JsVal) (s : Seeker) : Quiet s (setValue v s) := by
  unfold setValue
  split
  · exact Quiet.refl s
  · exact ⟨[.emit (.valueChanged v)], rfl, by intro n hn; simp at hn⟩

theorem quiet_updateUserInfo (resp : HttpResult) (fetched : Option UserInfo) (s : Seeker) :
    Quiet s (updateUserInfo resp fetched s) := by
  have h1 : Quiet s (record (.authCheck .updateUserInfo) s) :=
    quiet_record _ _ (by intro n h; cases h)
  cases resp <;> simp only [updateUserInfo, authCheck] <;> split_ifs <;>
    first
      | exact h1
      | exact ((h1.trans (quiet_record .getUserInfo _ (by intro n h; cases h))).trans
          (quiet_record _ _ (by intro n h; cases h))).trans (quiet_setValue _ _)

/-- The method `serviceActions` with the `switch` spelled by the three
values an auth check can have. -/
theorem serviceActions_eq (cfg : Settings) (env : TickEnv) (c : Int) (b : Bool)
    (s : Seeker) :
    serviceActions cfg env c b s =
      let s1 := if jsRem c (some updateUserInterval) = some 0 then
        updateUserInfo env.userAuth env.userInfo s else s
      if b = true ∧ jsRem c (workerInterval cfg s1) = some 0 then
        if (authCheck .serviceActions env.seekAuth s1).1 = 1 then
          record .seekService (record (.authCheck .serviceActions) s1)
        else if (authCheck .serviceActions env.seekAuth s1).1 = 0 then
          (stop (.bool true) .undefined
            (log "service.session_expired" (.bool true)
              (record (.authCheck .serviceActions) s1))).2
        else
          (stop (.bool true) (.bool true)
            (log "service.connection_lost" (.bool true)
              (record (.authCheck .serviceActions) s1))).2
      else s1 := by
  unfold serviceActions
  dsimp only
  generalize (if jsRem c (some updateUserInterval) = some 0 then
        updateUserInfo env.userAuth env.userInfo s else s) = s1
  by_cases hb : b = true
  · by_cases hw : jsRem c (workerInterval cfg s1) = some 0
    · rcases authCheck_range .serviceActions env.seekAuth s1 with h | h | h
      all_goals simp [hb, hw, h, authCheck_snd]
    · simp [hb, hw]
  · simp [hb]

theorem quiet_serviceActions (cfg : Settings) (env : TickEnv) (c : Int) (b : Bool)
    (s : Seeker) : Quiet s (serviceActions cfg env c b s) := by
  have h1 : Quiet s (if jsRem c (some updateUserInterval) = some 0 then
      updateUserInfo env.userAuth env.userInfo s else s) := by
    split
    · exact quiet_updateUserInfo _ _ _
    · exact Quiet.refl s
  rw [serviceActions_eq]
  dsimp only
  generalize (if jsRem c (some updateUserInterval) = some 0 then
        updateUserInfo env.userAuth env.userInfo s else s) = s1 at h1 ⊢
  have h2 : Quiet s (record (.authCheck .serviceActions) s1) :=
    h1.trans (quiet_record _ _ (by intro n h; cases h))
  split_ifs
  · exact h2.trans (quiet_record _ _ (by intro n h; cases h))
  · exact (h2.trans (quiet_log _ _ _)).trans (quiet_stop _ _ _)
  · exact (h2.trans (quiet_log _ _ _)).trans (quiet_stop _ _ _)
  · exact h1

/-! ### `totalTicks` is touched by `tick` and `start` only -/

theorem setState_totalTicks (st : State) (s : Seeker) :
    (setState st s).totalTicks = s.totalTicks := by
  unfold setState; split <;> rfl

theorem stop_totalTicks (w r : JsVal) (s : Seeker) :
    (stop w r s).2.totalTicks = s.totalTicks := by
  rw [stop_snd]
  split_ifs <;> simp [runReconnectTimeout, log, emit, record, setState_totalTicks]

theorem updateUserInfo_totalTicks (resp : HttpResult) (fetched : Option UserInfo)
    (s : Seeker) : (updateUserInfo resp fetched s).totalTicks = s.totalTicks := by
  cases resp <;> simp only [updateUserInfo, authCheck, setValue] <;> split_ifs <;> rfl

theorem serviceActions_totalTicks (cfg : Settings) (env : TickEnv) (c : Int) (b : Bool)
    (s : Seeker) : (serviceActions cfg env c b s).totalTicks = s.totalTicks := by
  have h1 : (if jsRem c (some updateUserInterval) = some 0 then
      updateUserInfo env.userAuth env.userInfo s else s).totalTicks = s.totalTicks := by
    split
    · exact updateUserInfo_totalTicks _ _ _
    · rfl
  rw [serviceActions_eq]
  dsimp only
  generalize (if jsRem c (some updateUserInterval) = some 0 then
        updateUserInfo env.userAuth env.userInfo s else s) = s1 at h1 ⊢
  split_ifs
  · simpa [record] using h1
  · rw [stop_totalTicks]; simpa [record, log, emit] using h1
  · rw [stop_totalTicks]; simpa [record, log, emit] using h1
  · exact h1

theorem tick_totalTicks (cfg : Settings) (env : TickEnv) (s : Seeker) :
    (tick cfg env s).totalTicks = nextTicks s.totalTicks := by
  simp [tick, serviceActions_totalTicks, emit, record]

theorem start_totalTicks (a : JsVal) (resp : HttpResult) (s : Seeker) :
    (start a resp s).2.totalTicks = s.totalTicks ∨ (start a resp s).2.totalTicks = 0 := by
  by_cases hs : s.state = .STARTED
  · left; simp [start, isStarted, hs]
  · rw [start_of_not_started a resp s hs]
    dsimp only
    split_ifs
    · right
      simp [setStateStarted, log, emit, record, setState_totalTicks]
    all_goals
      left
      simp [runReconnectTimeout, log, emit, record, setState_totalTicks]

theorem fireReconnect_totalTicks (id : Nat) (resp : HttpResult) (s : Seeker) :
    (fireReconnect id resp s).totalTicks = s.totalTicks ∨
      (fireReconnect id resp s).totalTicks = 0 := by
  unfold fireReconnect
  split
  · exact start_totalTicks _ _ _
  · left; rfl

theorem nextTicks_bounds (t : Int) (h0 : 0 ≤ t) (h1 : t ≤ 32760) :
    0 ≤ nextTicks t ∧ nextTicks t ≤ 32760 := by
  unfold nextTicks
  split <;> omega


/-! ### Counting auth checks in the trace -/

theorem stop_count (e : Effect) (he : ∀ ev, e ≠ .emit ev) (w r : JsVal) (s : Seeker) :
    (stop w r s).2.trace.count e = s.trace.count e := by
  have h1 : ∀ ev, (Effect.emit ev == e) = false := by
    intro ev
    simpa using fun h => he ev h.symm
  rw [stop_snd]
  split_ifs <;>
    simp [runReconnectTimeout, log, emit, record, setState, List.count_append,
      List.count_cons, h1] <;>
    split_ifs <;> simp [List.count_append, List.count_cons, h1]

theorem setValue_count (e : Effect) (he : ∀ ev, e ≠ .emit ev) (v : JsVal) (s : Seeker) :
    (setValue v s).trace.count e = s.trace.count e := by
  have h1 : ∀ ev, (Effect.emit ev == e) = false := by
    intro ev
    simpa using fun h => he ev h.symm
  unfold setValue
  split_ifs <;> simp [emit, record, List.count_append, List.count_cons, h1]

theorem updateUserInfo_refreshes (resp : HttpResult) (fetched : Option UserInfo)
    (s : Seeker) : refreshes (updateUserInfo resp fetched s) = refreshes s + 1 := by
  unfold refreshes
  cases resp <;> simp only [updateUserInfo, authCheck] <;> split_ifs <;>
    simp [setValue_count, emit, record, List.count_append, List.count_cons]

theorem updateUserInfo_seekChecks (resp : HttpResult) (fetched : Option UserInfo)
    (s : Seeker) : seekChecks (updateUserInfo resp fetched s) = seekChecks s := by
  unfold seekChecks
  cases resp <;> simp only [updateUserInfo, authCheck] <;> split_ifs <;>
    simp [setValue_count, emit, record, List.count_append, List.count_cons]

theorem updateUserInfo_name (resp : HttpResult) (fetched : Option UserInfo)
    (s : Seeker) : (updateUserInfo resp fetched s).name = s.name ∧
      (updateUserInfo resp fetched s).settings = s.settings := by
  cases resp <;> simp only [updateUserInfo, authCheck, setValue] <;> split_ifs <;>
    exact ⟨rfl, rfl⟩

/-- A remainder by a nonzero number is `0` exactly when the divisor divides. -/
theorem jsRem_eq_zero_iff (c m : Int) (hm : m ≠ 0) :
    jsRem c (some m) = some 0 ↔ c % m = 0 := by
  simp only [jsRem, hm, if_false, Option.some.injEq]
  constructor
  · intro h
    exact Int.emod_eq_zero_of_dvd (Int.dvd_of_tmod_eq_zero h)
  · intro h
    exact Int.tmod_eq_zero_of_dvd (Int.dvd_of_emod_eq_zero h)

theorem serviceActions_refreshes (cfg : Settings) (env : TickEnv) (c : Int) (b : Bool)
    (s : Seeker) :
    refreshes (serviceActions cfg env c b s) =
      refreshes s + (if c % 300 = 0 then 1 else 0) := by
  have h1 : refreshes (if jsRem c (some updateUserInterval) = some 0 then
      updateUserInfo env.userAuth env.userInfo s else s) =
      refreshes s + (if c % 300 = 0 then 1 else 0) := by
    simp only [show updateUserInterval = 300 from rfl, jsRem_eq_zero_iff c 300 (by decide)]
    split
    · exact updateUserInfo_refreshes _ _ _
    · rfl
  rw [serviceActions_eq]
  dsimp only
  generalize (if jsRem c (some updateUserInterval) = some 0 then
        updateUserInfo env.userAuth env.userInfo s else s) = s1 at h1 ⊢
  rw [← h1]
  unfold refreshes
  split_ifs
  · simp [record, List.count_append, List.count_cons]
  · rw [stop_count _ (by intro ev h; cases h)]
    simp [log, emit, record, List.count_append, List.count_cons]
  · rw [stop_count _ (by intro ev h; cases h)]
    simp [log, emit, record, List.count_append, List.count_cons]
  · rfl

theorem serviceActions_seekChecks (cfg : Settings) (env : TickEnv) (c : Int) (b : Bool)
    (s : Seeker) (m : Int) (hm : m ≠ 0)
    (ht : getConfig cfg s.name (some s.settings) "timer" (some 10) = some m) :
    seekChecks (serviceActions cfg env c b s) =
      seekChecks s + (if b = true ∧ c % (m * 60) = 0 then 1 else 0) := by
  have h1 : seekChecks (if jsRem c (some updateUserInterval) = some 0 then
      updateUserInfo env.userAuth env.userInfo s else s) = seekChecks s := by
    split
    · exact updateUserInfo_seekChecks _ _ _
    · rfl
  have h2 : workerInterval cfg (if jsRem c (some updateUserInterval) = some 0 then
      updateUserInfo env.userAuth env.userInfo s else s) = some (m * 60) := by
    have : workerInterval cfg s = some (m * 60) := by simp [workerInterval, ht]
    split
    · simpa [workerInterval, (updateUserInfo_name _ _ s).1, (updateUserInfo_name _ _ s).2]
        using this
    · exact this
  rw [serviceActions_eq]
  dsimp only
  generalize (if jsRem c (some updateUserInterval) = some 0 then
        updateUserInfo env.userAuth env.userInfo s else s) = s1 at h1 h2 ⊢
  rw [← h1, h2]
  simp only [jsRem_eq_zero_iff c (m * 60) (by omega)]
  unfold seekChecks
  by_cases hb : b = true ∧ c % (m * 60) = 0
  · simp only [hb, and_self, if_true]
    split_ifs
    · simp [record, List.count_append, List.count_cons]
    · rw [stop_count _ (by intro ev h; cases h)]
      simp [log, emit, record, List.count_append, List.count_cons]
    · rw [stop_count _ (by intro ev h; cases h)]
      simp [log, emit, record, List.count_append, List.count_cons]
  · simp only [hb, if_false, add_zero]

/-- Every step keeps `totalTicks` within `[0, 32760]`. -/
theorem op_totalTicks_bounds (op : Op) (s : Seeker)
    (h : 0 ≤ s.totalTicks ∧ s.totalTicks ≤ 32760) :
    0 ≤ (op.apply s).totalTicks ∧ (op.apply s).totalTicks ≤ 32760 := by
  cases op with
  | start a resp =>
    rcases start_totalTicks a resp s with e | e <;> simp only [Op.apply, e] <;> omega
  | stop w r => simpa only [Op.apply, stop_totalTicks] using h
  | setState st => simpa only [Op.apply, setState_totalTicks] using h
  | tick cfg env =>
    simpa only [Op.apply, tick_totalTicks] using nextTicks_bounds _ h.1 h.2
  | fire id resp =>
    rcases fireReconnect_totalTicks id resp s with e | e <;> simp only [Op.apply, e] <;> omega

/-- Every sequence of steps keeps `totalTicks` within `[0, 32760]`. -/
theorem runOps_totalTicks_bounds (ops : List Op) (s : Seeker)
    (h : 0 ≤ s.totalTicks ∧ s.totalTicks ≤ 32760) :
    0 ≤ (runOps ops s).totalTicks ∧ (runOps ops s).totalTicks ≤ 32760 := by
  induction ops generalizing s with
  | nil => exact h
  | cons op ops ih => exact ih (op.apply s) (op_totalTicks_bounds op s h)

/-- A tick appends one `tick` event, carrying the new counter, and after it
only effects that are not `tick` events. -/
theorem tick_trace (cfg : Settings) (env : TickEnv) (s : Seeker) :
    ∃ rest, (tick cfg env s).trace =
        s.trace ++ .emit (.tick (tick cfg env s).totalTicks) :: rest ∧
      ∀ n, Effect.emit (.tick n) ∉ rest := by
  obtain ⟨rest, e, hn⟩ := quiet_serviceActions cfg env s.totalTicks (isStarted s)
    (emit (.tick (nextTicks s.totalTicks)) { s with totalTicks := nextTicks s.totalTicks })
  refine ⟨rest, ?_, hn⟩
  rw [tick_totalTicks]
  simp only [tick]
  rw [e]
  simp [emit, record]


/-- A tick makes a profile refresh exactly when the counter it starts from is a
multiple of 300. -/
theorem tick_refreshes (cfg : Settings) (env : TickEnv) (s : Seeker) :
    refreshes (tick cfg env s) = refreshes s + (if s.totalTicks % 300 = 0 then 1 else 0) := by
  simp only [tick]
  rw [serviceActions_refreshes]
  simp [refreshes, emit, record, List.count_append, List.count_cons]

/-- A tick makes the seek cadence's auth check exactly when the engine is started
and the counter it starts from is a multiple of the worker interval. -/
theorem tick_seekChecks (cfg : Settings) (env : TickEnv) (s : Seeker) (m : Int)
    (hm : m ≠ 0)
    (ht : getConfig cfg s.name (some s.settings) "timer" (some 10) = some m) :
    seekChecks (tick cfg env s) =
      seekChecks s +
        (if isStarted s = true ∧ s.totalTicks % (m * 60) = 0 then 1 else 0) := by
  simp only [tick]
  rw [serviceActions_seekChecks _ _ _ _ _ m hm (by simpa [emit, record] using ht)]
  simp [seekChecks, emit, record, List.count_append, List.count_cons]


theorem runTicks_append (cfg : Settings) (e1 e2 : List TickEnv) (s : Seeker) :
    runTicks cfg (e1 ++ e2) s = runTicks cfg e2 (runTicks cfg e1 s) := by
  simp [runTicks, List.foldl_append]

/-- The counter after a run of ticks is the counter update iterated. -/
theorem runTicks_totalTicks (cfg : Settings) (envs : List TickEnv) (s : Seeker) :
    (runTicks cfg envs s).totalTicks = nextTicks^[envs.length] s.totalTicks := by
  induction envs generalizing s with
  | nil => rfl
  | cons env envs ih =>
    simp only [runTicks, List.foldl_cons, List.length_cons, Function.iterate_succ,
      Function.comp_apply] at ih ⊢
    rw [ih, tick_totalTicks]

/-- Below the wrap the counter update adds one per tick. -/
theorem nextTicks_iterate (t : Int) (n : Nat) (h : t + n ≤ 32760) :
    nextTicks^[n] t = t + n := by
  induction n generalizing t with
  | zero => simp
  | succ n ih =>
    rw [Function.iterate_succ, Function.comp_apply]
    have : nextTicks t = t + 1 := by
      unfold nextTicks
      rw [if_pos (by push_cast at h; omega)]
    rw [this, ih (t + 1) (by push_cast at h ⊢; omega)]
    push_cast
    ring

theorem runFor_succ (cfg : Settings) (envAt : Nat → TickEnv) (n : Nat) (s : Seeker) :
    runFor cfg envAt (n + 1) s = tick cfg (envAt n) (runFor cfg envAt n s) := by
  simp [runFor, runTicks, List.range_succ, List.foldl_append]

theorem runFor_totalTicks (cfg : Settings) (envAt : Nat → TickEnv) (n : Nat) (s : Seeker) :
    (runFor cfg envAt n s).totalTicks = nextTicks^[n] s.totalTicks := by
  simp [runFor, runTicks_totalTicks]

theorem runFor_totalTicks_le (cfg : Settings) (envAt : Nat → TickEnv) (n : Nat)
    (s : Seeker) (h0 : s.totalTicks = 0) (hn : n ≤ 32760) :
    (runFor cfg envAt n s).totalTicks = n := by
  rw [runFor_totalTicks, h0, nextTicks_iterate 0 n (by omega)]
  simp

/-- In a worker run from counter `0`: the tick on counter value 32700 makes a
profile refresh, none of the next 60 ticks does, the counter is back at `0`
after tick 32761, and the tick on that `0` makes the next refresh. -/
theorem runFor_refresh_gap (cfg : Settings) (envAt : Nat → TickEnv) (s : Seeker)
    (h0 : s.totalTicks = 0) :
    (runFor cfg envAt 32700 s).totalTicks = 32700 ∧
    refreshes (runFor cfg envAt 32701 s) = refreshes (runFor cfg envAt 32700 s) + 1 ∧
    (∀ n, 32701 ≤ n → n ≤ 32761 →
      refreshes (runFor cfg envAt n s) = refreshes (runFor cfg envAt 32701 s)) ∧
    (runFor cfg envAt 32761 s).totalTicks = 0 ∧
    refreshes (runFor cfg envAt 32762 s) = refreshes (runFor cfg envAt 32761 s) + 1 := by
  have hA := runFor_totalTicks_le cfg envAt 32700 s h0 (by decide)
  have hstep : ∀ k : Nat, k ≤ 59 →
      refreshes (runFor cfg envAt (32701 + k + 1) s) =
        refreshes (runFor cfg envAt (32701 + k) s) := by
    intro k hk
    rw [runFor_succ, tick_refreshes, runFor_totalTicks_le cfg envAt _ s h0 (by omega)]
    have : ¬ (((32701 + k : Nat) : Int) % 300 = 0) := by omega
    rw [if_neg this, Nat.add_zero]
  have hZ : (runFor cfg envAt 32761 s).totalTicks = 0 := by
    rw [runFor_succ, tick_totalTicks, runFor_totalTicks_le cfg envAt 32760 s h0 (by decide)]
    decide
  refine ⟨hA, ?_, ?_, hZ, ?_⟩
  · rw [runFor_succ, tick_refreshes, hA]
    norm_num
  · intro n h1 h2
    obtain ⟨k, rfl⟩ : ∃ k, n = 32701 + k := ⟨n - 32701, by omega⟩
    induction k with
    | zero => rfl
    | succ k ih =>
      rw [← Nat.add_assoc, hstep k (by omega)]
      exact ih (by omega) (by omega)
  · rw [runFor_succ, tick_refreshes, hZ]
    norm_num

/-! ### The reconnect timeouts stay owned -/

theorem timersOwned_of_same {s s2 : Seeker} (h : TimersOwned s)
    (hp : s2.pending = s.pending) (hr : s2.reconnectTimeout = s.reconnectTimeout) :
    TimersOwned s2 := by
  intro t ht
  rw [hr]
  exact h t (hp ▸ ht)

theorem timersOwned_record (e : Effect) (s : Seeker) (h : TimersOwned s) :
    TimersOwned (record e s) :=
  timersOwned_of_same h rfl rfl

theorem timersOwned_log (key : String) (type : JsVal) (s : Seeker) (h : TimersOwned s) :
    TimersOwned (log key type s) :=
  timersOwned_of_same h rfl rfl

theorem timersOwned_setState (st : State) (s : Seeker) (h : TimersOwned s) :
    TimersOwned (setState st s) := by
  unfold setState
  split
  · exact h
  · exact timersOwned_of_same h rfl rfl

/-- Arming clears the one owned timeout and stores the handle of the new one. -/
theorem timersOwned_runReconnectTimeout (s : Seeker) (h : TimersOwned s) :
    TimersOwned (runReconnectTimeout s) := by
  have hclear : clearTimeout s.reconnectTimeout s.pending = [] := by
    simp only [clearTimeout, List.filter_eq_nil_iff]
    intro t htm
    simp [h t htm]
  intro t ht
  simp only [runReconnectTimeout, log, emit, record, hclear, List.nil_append,
    List.mem_singleton] at ht ⊢
  rw [ht]

theorem timersOwned_stop (w r : JsVal) (s : Seeker) (h : TimersOwned s) :
    TimersOwned (stop w r s).2 := by
  rw [stop_snd]
  generalize (if w.truthy = true then State.ERROR else State.PAUSED) = st
  split_ifs
  · exact timersOwned_runReconnectTimeout _ (timersOwned_log _ _ _ (timersOwned_setState st s h))
  · exact timersOwned_log _ _ _ (timersOwned_setState st s h)
  · exact h

theorem timersOwned_start (a : JsVal) (resp : HttpResult) (s : Seeker)
    (h : TimersOwned s) : TimersOwned (start a resp s).2 := by
  by_cases hs : s.state = .STARTED
  · simpa [start, isStarted, hs] using h
  · rw [start_of_not_started a resp s hs]
    have h2 : TimersOwned (record (.authCheck .start) (setState .PROCESS s)) :=
      timersOwned_record _ _ (timersOwned_setState _ _ h)
    have h4 := timersOwned_log "service.connection_error" (.bool true) _
      (timersOwned_setState .ERROR _ h2)
    dsimp only
    split_ifs
    · exact timersOwned_log _ _ _
        (timersOwned_setState .STARTED _ (timersOwned_of_same h2 rfl rfl))
    · exact timersOwned_log _ _ _ (timersOwned_setState _ _ h2)
    · exact timersOwned_runReconnectTimeout _ h4
    · exact h4
    · exact h2

theorem timersOwned_updateUserInfo (resp : HttpResult) (fetched : Option UserInfo)
    (s : Seeker) (h : TimersOwned s) : TimersOwned (updateUserInfo resp fetched s) := by
  cases resp <;> simp only [updateUserInfo, authCheck, setValue] <;> split_ifs <;>
    exact timersOwned_of_same h rfl rfl

theorem timersOwned_serviceActions (cfg : Settings) (env : TickEnv) (c : Int) (b : Bool)
    (s : Seeker) (h : TimersOwned s) : TimersOwned (serviceActions cfg env c b s) := by
  have h1 : TimersOwned (if jsRem c (some updateUserInterval) = some 0 then
      updateUserInfo env.userAuth env.userInfo s else s) := by
    split
    · exact timersOwned_updateUserInfo _ _ _ h
    · exact h
  rw [serviceActions_eq]
  dsimp only
  generalize (if jsRem c (some updateUserInterval) = some 0 then
        updateUserInfo env.userAuth env.userInfo s else s) = s1 at h1 ⊢
  split_ifs
  · exact timersOwned_record _ _ (timersOwned_record _ _ h1)
  · exact timersOwned_stop _ _ _ (timersOwned_log _ _ _ (timersOwned_record _ _ h1))
  · exact timersOwned_stop _ _ _ (timersOwned_log _ _ _ (timersOwned_record _ _ h1))
  · exact h1

theorem timersOwned_tick (cfg : Settings) (env : TickEnv) (s : Seeker)
    (h : TimersOwned s) : TimersOwned (tick cfg env s) :=
  timersOwned_serviceActions _ _ _ _ _ (timersOwned_of_same h rfl rfl)

theorem timersOwned_fireReconnect (id : Nat) (resp : HttpResult) (s : Seeker)
    (h : TimersOwned s) : TimersOwned (fireReconnect id resp s) := by
  unfold fireReconnect
  split
  · apply timersOwned_start
    intro t ht
    exact h t (List.mem_filter.mp ht).1
  · exact h

/-- A fresh engine has no pending timeout. -/
theorem timersOwned_new (cfg : Settings) (name : String) (params : Params) :
    TimersOwned (Seeker.new cfg name params) := by
  intro t ht
  cases ht

/-- Every sequence of steps keeps the reconnect timeouts owned. -/
theorem timersOwned_runOps (ops : List Op) (s : Seeker) (h : TimersOwned s) :
    TimersOwned (runOps ops s) := by
  induction ops generalizing s with
  | nil => exact h
  | cons op ops ih =>
    apply ih
    cases op with
    | start a resp => exact timersOwned_start a resp s h
    | stop w r => exact timersOwned_stop w r s h
    | setState st => exact timersOwned_setState st s h
    | tick cfg env => exact timersOwned_tick cfg env s h
    | fire id resp => exact timersOwned_fireReconnect id resp s h

/-! ### The seek-cadence part of a tick -/

/-- The result of an auth check depends on `authContent` only. -/
theorem authCheck_fst_congr (site site2 : CallSite) (resp : HttpResult) (s s2 : Seeker)
    (h : s2.authContent = s.authContent) :
    (authCheck site2 resp s2).1 = (authCheck site resp s).1 := by
  cases resp <;> simp [authCheck, h]

/-- The method `updateUserInfo` by the two outcomes of its test. -/
theorem updateUserInfo_def (resp : HttpResult) (fetched : Option UserInfo) (s : Seeker) :
    updateUserInfo resp fetched s =
      if (authCheck .updateUserInfo resp s).1 = 1 then
        setValue (fetchedOrDefault fetched s).value
          (emit (.userinfoUpdated (fetchedOrDefault fetched s))
            (record .getUserInfo (record (.authCheck .updateUserInfo) s)))
      else record (.authCheck .updateUserInfo) s := by
  cases resp <;> cases fetched <;> rfl

theorem SameCore.coreRefl (s : Seeker) : SameCore s s :=
  ⟨rfl, rfl, rfl, rfl, rfl, rfl, rfl, rfl, rfl⟩

theorem SameCore.coreTrans {a b c : Seeker} (h1 : SameCore a b) (h2 : SameCore b c) :
    SameCore a c := by
  obtain ⟨a1, a2, a3, a4, a5, a6, a7, a8, a9⟩ := h1
  obtain ⟨b1, b2, b3, b4, b5, b6, b7, b8, b9⟩ := h2
  exact ⟨b1.trans a1, b2.trans a2, b3.trans a3, b4.trans a4, b5.trans a5, b6.trans a6,
    b7.trans a7, b8.trans a8, b9.trans a9⟩

theorem sameCore_record (e : Effect) (s : Seeker) : SameCore s (record e s) :=
  ⟨rfl, rfl, rfl, rfl, rfl, rfl, rfl, rfl, rfl⟩

theorem sameCore_setValue (v : JsVal) (s : Seeker) : SameCore s (setValue v s) := by
  unfold setValue
  split
  · exact SameCore.coreRefl s
  · exact ⟨rfl, rfl, rfl, rfl, rfl, rfl, rfl, rfl, rfl⟩

/-- A profile refresh touches the trace and `currentValue` only. -/
theorem updateUserInfo_core (resp : HttpResult) (fetched : Option UserInfo) (s : Seeker) :
    SameCore s (updateUserInfo resp fetched s) := by
  rw [updateUserInfo_def]
  split
  · exact (((sameCore_record _ s).coreTrans (sameCore_record _ _)).coreTrans
      (sameCore_record _ _)).coreTrans (sameCore_setValue _ _)
  · exact sameCore_record _ s

/-- A profile refresh makes no call of the seek cycle. -/
theorem updateUserInfo_seekService (resp : HttpResult) (fetched : Option UserInfo)
    (s : Seeker) :
    (updateUserInfo resp fetched s).trace.count .seekService =
      s.trace.count .seekService := by
  rw [updateUserInfo_def]
  split
  · rw [setValue_count _ (by intro ev h; cases h)]
    simp [emit, record, List.count_append, List.count_cons]
  · simp [record, List.count_append, List.count_cons]

/-- What the seek-cadence part of a tick finds: the fields of the engine
before the tick, except the counter, the trace and `currentValue`. -/
theorem afterRefresh_core (env : TickEnv) (s : Seeker) :
    SameCore s (afterRefresh env s) := by
  unfold afterRefresh
  split
  · exact SameCore.coreTrans (b := emit (.tick (nextTicks s.totalTicks))
        { s with totalTicks := nextTicks s.totalTicks })
      ⟨rfl, rfl, rfl, rfl, rfl, rfl, rfl, rfl, rfl⟩ (updateUserInfo_core _ _ _)
  · exact ⟨rfl, rfl, rfl, rfl, rfl, rfl, rfl, rfl, rfl⟩

/-- The trace the seek-cadence part of a tick finds extends the one before the
tick. -/
theorem afterRefresh_trace (env : TickEnv) (s : Seeker) :
    ∃ mid, (afterRefresh env s).trace = s.trace ++ mid := by
  unfold afterRefresh
  split
  · obtain ⟨rest, e, -⟩ := quiet_updateUserInfo env.userAuth env.userInfo
      (emit (.tick (nextTicks s.totalTicks)) { s with totalTicks := nextTicks s.totalTicks })
    refine ⟨.emit (.tick (nextTicks s.totalTicks)) :: rest, ?_⟩
    rw [e]
    show (s.trace ++ [_]) ++ rest = _
    rw [List.append_assoc]
    rfl
  · exact ⟨[.emit (.tick (nextTicks s.totalTicks))], rfl⟩

/-- Neither the `tick` event nor the profile refresh calls the seek cycle. -/
theorem afterRefresh_seekService (env : TickEnv) (s : Seeker) :
    (afterRefresh env s).trace.count .seekService = s.trace.count .seekService := by
  unfold afterRefresh
  split
  · rw [updateUserInfo_seekService]
    simp [emit, record, List.count_append, List.count_cons]
  · simp [emit, record, List.count_append, List.count_cons]

/-- A tick is the seek-cadence part of `serviceActions` run on `afterRefresh`. -/
theorem tick_eq (cfg : Settings) (env : TickEnv) (s : Seeker) :
    tick cfg env s =
      if isStarted s = true ∧
          jsRem s.totalTicks (workerInterval cfg (afterRefresh env s)) = some 0 then
        if (authCheck .serviceActions env.seekAuth (afterRefresh env s)).1 = 1 then
          record .seekService (record (.authCheck .serviceActions) (afterRefresh env s))
        else if (authCheck .serviceActions env.seekAuth (afterRefresh env s)).1 = 0 then
          (stop (.bool true) .undefined
            (log "service.session_expired" (.bool true)
              (record (.authCheck .serviceActions) (afterRefresh env s)))).2
        else
          (stop (.bool true) (.bool true)
            (log "service.connection_lost" (.bool true)
              (record (.authCheck .serviceActions) (afterRefresh env s)))).2
      else afterRefresh env s := by
  simp only [tick, serviceActions_eq, afterRefresh]

/-- The seek cadence of a tick on a started engine, by the three values of its
auth check: what is appended to the trace `afterRefresh` leaves, and what
becomes of the other fields. -/
theorem tick_seek_cases (cfg : Settings) (env : TickEnv) (s : Seeker)
    (hs : s.state = .STARTED)
    (hc : jsRem s.totalTicks (workerInterval cfg s) = some 0) :
    ((authCheck .serviceActions env.seekAuth s).1 = 1 →
      tick cfg env s =
        { afterRefresh env s with
          trace := (afterRefresh env s).trace ++ [.authCheck .serviceActions, .seekService] }) ∧
    ((authCheck .serviceActions env.seekAuth s).1 = 0 →
      tick cfg env s =
        { afterRefresh env s with
          state := .ERROR
          trace := (afterRefresh env s).trace ++
            [.authCheck .serviceActions,
              .emit (.log "service.session_expired" (.bool true)),
              .emit (.stateChanged .ERROR), .emit (.log "service.stopped" .undefined)] }) ∧
    ((authCheck .serviceActions env.seekAuth s).1 = -1 →
      tick cfg env s =
        { afterRefresh env s with
          state := .ERROR
          trace := (afterRefresh env s).trace ++
            [.authCheck .serviceActions,
              .emit (.log "service.connection_lost" (.bool true)),
              .emit (.stateChanged .ERROR), .emit (.log "service.stopped" .undefined),
              .emit (.log "service.reconnect_in_5_min" .undefined)]
          pending := clearTimeout s.reconnectTimeout s.pending ++ [⟨s.nextTimer, 300000⟩]
          reconnectTimeout := some s.nextTimer
          nextTimer := s.nextTimer + 1 }) := by
  obtain ⟨c1, c2, c3, c4, c5, c6, c7, c8, c9⟩ := afterRefresh_core env s
  have hw : workerInterval cfg (afterRefresh env s) = workerInterval cfg s := by
    simp only [workerInterval, c5, c6]
  have ha : (authCheck .serviceActions env.seekAuth (afterRefresh env s)).1 =
      (authCheck .serviceActions env.seekAuth s).1 :=
    authCheck_fst_congr _ _ _ _ _ c7
  have hst : isStarted s = true := by simp [isStarted, hs]
  rw [tick_eq, hw, ha]
  generalize afterRefresh env s = s1 at c1 c2 c3 c4 c5 c6 c7 c8 c9 ⊢
  refine ⟨fun h => ?_, fun h => ?_, fun h => ?_⟩
  · simp [h, hst, hc, record]
  · simp [h, hst, hc, stop_snd, log, emit, record, setState, c1, hs, JsVal.truthy]
  · simp [h, hst, hc, stop_snd, log, emit, record, setState, c1, hs, JsVal.truthy,
      runReconnectTimeout, c2, c3, c4]

/-! ### The randomized entry interval -/

/-- The search `indexOfFrom` succeeds exactly when the needle is an infix. -/
theorem indexOfFrom_nonneg_iff (needle : List Char) (hay : List Char) (i : Nat) :
    0 ≤ indexOfFrom needle hay i ↔ needle <:+: hay := by
  induction hay generalizing i with
  | nil =>
    simp only [indexOfFrom]
    by_cases h : needle = []
    · subst h
      simp
    · have : needle.isPrefixOf ([] : List Char) = false := by
        cases needle with
        | nil => exact absurd rfl h
        | cons a as => rfl
      simp [this, h]
  | cons c cs ih =>
    simp only [indexOfFrom]
    rw [List.infix_cons_iff]
    by_cases h : needle.isPrefixOf (c :: cs) = true
    · simp only [h, if_true]
      constructor
      · intro _
        exact Or.inl (List.isPrefixOf_iff_prefix.mp h)
      · intro _
        exact Int.natCast_nonneg i
    · have hf : needle.isPrefixOf (c :: cs) = false := Bool.eq_false_iff.mpr h
      rw [hf, if_neg (by decide), ih (i + 1)]
      constructor
      · exact Or.inr
      · rintro (hp | hi)
        · exact absurd (List.isPrefixOf_iff_prefix.mpr hp) h
        · exact hi

/-- The call `body.indexOf(marker) >= 0` holds exactly when the body contains
the marker. -/
theorem indexOf_nonneg_iff (body marker : String) :
    0 ≤ indexOf body marker ↔ ContainsMarker body marker := by
  unfold indexOf ContainsMarker
  rw [indexOfFrom_nonneg_iff]
  constructor
  · rintro ⟨before, after, h⟩
    exact ⟨before, after, h.symm⟩
  · rintro ⟨before, after, h⟩
    exact ⟨before, after, h.symm⟩

/-! ### `currentValue` and `withValue` are touched by `setValue` only -/

theorem KeepsValue.valueRefl (s : Seeker) : KeepsValue s s :=
  ⟨rfl, rfl⟩

theorem KeepsValue.valueTrans {a b c : Seeker} (h1 : KeepsValue a b) (h2 : KeepsValue b c) :
    KeepsValue a c :=
  ⟨h2.1.trans h1.1, h2.2.trans h1.2⟩

theorem keepsValue_record (e : Effect) (s : Seeker) : KeepsValue s (record e s) :=
  ⟨rfl, rfl⟩

theorem keepsValue_log (key : String) (type : JsVal) (s : Seeker) :
    KeepsValue s (log key type s) :=
  ⟨rfl, rfl⟩

theorem keepsValue_setState (st : State) (s : Seeker) : KeepsValue s (setState st s) := by
  unfold setState
  split
  · exact KeepsValue.valueRefl s
  · exact ⟨rfl, rfl⟩

theorem keepsValue_runReconnectTimeout (s : Seeker) :
    KeepsValue s (runReconnectTimeout s) :=
  ⟨rfl, rfl⟩

theorem keepsValue_stop (w r : JsVal) (s : Seeker) : KeepsValue s (stop w r s).2 := by
  rw [stop_snd]
  generalize (if w.truthy = true then State.ERROR else State.PAUSED) = st
  split_ifs
  · exact ((keepsValue_setState st s).valueTrans (keepsValue_log _ _ _)).valueTrans
      (keepsValue_runReconnectTimeout _)
  · exact (keepsValue_setState st s).valueTrans (keepsValue_log _ _ _)
  · exact KeepsValue.valueRefl s

theorem keepsValue_start (a : JsVal) (resp : HttpResult) (s : Seeker) :
    KeepsValue s (start a resp s).2 := by
  by_cases hs : s.state = .STARTED
  · simp only [start, isStarted, hs, decide_True, if_true]
    exact KeepsValue.valueRefl s
  · rw [start_of_not_started a resp s hs]
    have h2 : KeepsValue s (record (.authCheck .start) (setState .PROCESS s)) :=
      (keepsValue_setState _ s).valueTrans (keepsValue_record _ _)
    have h4 : KeepsValue s (log "service.connection_error" (.bool true)
        (setState .ERROR (record (.authCheck .start) (setState .PROCESS s)))) :=
      (h2.valueTrans (keepsValue_setState _ _)).valueTrans (keepsValue_log _ _ _)
    dsimp only
    split_ifs
    · exact (h2.valueTrans (KeepsValue.valueTrans (b := { record (.authCheck .start)
          (setState .PROCESS s) with totalTicks := 0 }) ⟨rfl, rfl⟩
          (keepsValue_setState .STARTED _))).valueTrans (keepsValue_log _ _ _)
    · exact (h2.valueTrans (keepsValue_setState _ _)).valueTrans (keepsValue_log _ _ _)
    · exact h4.valueTrans (keepsValue_runReconnectTimeout _)
    · exact h4
    · exact h2

/-- The seek-cadence part of a tick leaves `currentValue` and `withValue` as
the profile-refresh part left them. -/
theorem keepsValue_tick (cfg : Settings) (env : TickEnv) (s : Seeker) :
    KeepsValue (afterRefresh env s) (tick cfg env s) := by
  rw [tick_eq]
  split_ifs
  · exact (keepsValue_record _ _).valueTrans (keepsValue_record _ _)
  · exact ((keepsValue_record _ _).valueTrans (keepsValue_log _ _ _)).valueTrans
      (keepsValue_stop _ _ _)
  · exact ((keepsValue_record _ _).valueTrans (keepsValue_log _ _ _)).valueTrans
      (keepsValue_stop _ _ _)
  · exact KeepsValue.valueRefl _

/-- The value a profile refresh leaves: the parsed value of the published info
if the auth check yields `1` and `withValue` is truthy, the old one otherwise. -/
theorem updateUserInfo_currentValue (resp : HttpResult) (fetched : Option UserInfo)
    (s : Seeker) :
    (updateUserInfo resp fetched s).currentValue =
      if (authCheck .updateUserInfo resp s).1 = 1 ∧ s.withValue.truthy = true then
        parseInt (fetchedOrDefault fetched s).value
      else s.currentValue := by
  rw [updateUserInfo_def]
  by_cases ha : (authCheck .updateUserInfo resp s).1 = 1
  · by_cases hw : s.withValue.truthy = true
    · simp [ha, hw, setValue, emit, record]
    · simp [ha, hw, setValue, emit, record]
  · simp [ha, record]

/-- The value the profile-refresh part of a tick leaves. -/
theorem afterRefresh_currentValue (env : TickEnv) (s : Seeker) :
    (afterRefresh env s).currentValue =
      if s.totalTicks % 300 = 0 ∧ (authCheck .updateUserInfo env.userAuth s).1 = 1 ∧
          s.withValue.truthy = true then
        parseInt (fetchedOrDefault env.userInfo s).value
      else s.currentValue := by
  unfold afterRefresh
  simp only [show updateUserInterval = 300 from rfl, jsRem_eq_zero_iff _ 300 (by decide)]
  by_cases hc : s.totalTicks % 300 = 0
  · simp only [hc, if_true, true_and]
    rw [updateUserInfo_currentValue]
    have h1 := authCheck_fst_congr .updateUserInfo .updateUserInfo env.userAuth s
      (emit (.tick (nextTicks s.totalTicks)) { s with totalTicks := nextTicks s.totalTicks })
      rfl
    have h2 : fetchedOrDefault env.userInfo
        (emit (.tick (nextTicks s.totalTicks))
          { s with totalTicks := nextTicks s.totalTicks }) =
        fetchedOrDefault env.userInfo s := by
      cases env.userInfo <;> rfl
    rw [h1, h2]
    rfl
  · simp only [hc, if_false, false_and]
    rfl

/-! ### `withValue` is fixed at construction -/

theorem timerInv_of_same {s u : Seeker} (h : TimerInv s)
    (hp : u.pending = s.pending) (hr : u.reconnectTimeout = s.reconnectTimeout)
    (hn : u.nextTimer = s.nextTimer) : TimerInv u := by
  obtain ⟨h1, h2, h3⟩ := h
  refine ⟨timersOwned_of_same h1 hp hr, by rw [hp]; exact h2, ?_⟩
  intro t ht
  rw [hn]
  exact h3 t (hp ▸ ht)

theorem timerInv_setState (st : State) (s : Seeker) (h : TimerInv s) :
    TimerInv (setState st s) := by
  unfold setState
  split
  · exact h
  · exact timerInv_of_same h rfl rfl rfl

/-- Arming leaves exactly the new timeout pending. -/
theorem runReconnectTimeout_pending (s : Seeker) (h : TimersOwned s) :
    (runReconnectTimeout s).pending = [⟨s.nextTimer, 300000⟩] := by
  have hclear : clearTimeout s.reconnectTimeout s.pending = [] := by
    simp only [clearTimeout, List.filter_eq_nil_iff]
    intro t htm
    simp [h t htm]
  show clearTimeout s.reconnectTimeout s.pending ++ _ = _
  rw [hclear]
  rfl

theorem timerInv_runReconnectTimeout (s : Seeker) (h : TimerInv s) :
    TimerInv (runReconnectTimeout s) := by
  refine ⟨timersOwned_runReconnectTimeout s h.1, ?_, ?_⟩
  · rw [runReconnectTimeout_pending s h.1]
    exact Nat.le_refl 1
  · intro t ht
    rw [runReconnectTimeout_pending s h.1] at ht
    rw [List.mem_singleton.mp ht]
    exact Nat.lt_succ_self s.nextTimer

theorem timerInv_stop (w r : JsVal) (s : Seeker) (h : TimerInv s) :
    TimerInv (stop w r s).2 := by
  rw [stop_snd]
  generalize (if w.truthy = true then State.ERROR else State.PAUSED) = st
  split_ifs
  · exact timerInv_runReconnectTimeout _
      (timerInv_of_same (timerInv_setState st s h) rfl rfl rfl)
  · exact timerInv_of_same (timerInv_setState st s h) rfl rfl rfl
  · exact h

theorem timerInv_start (a : JsVal) (resp : HttpResult) (s : Seeker) (h : TimerInv s) :
    TimerInv (start a resp s).2 := by
  by_cases hs : s.state = .STARTED
  · simpa [start, isStarted, hs] using h
  · rw [start_of_not_started a resp s hs]
    have h2 : TimerInv (record (.authCheck .start) (setState .PROCESS s)) :=
      timerInv_of_same (timerInv_setState _ _ h) rfl rfl rfl
    have h4 : TimerInv (log "service.connection_error" (.bool true)
        (setState .ERROR (record (.authCheck .start) (setState .PROCESS s)))) :=
      timerInv_of_same (timerInv_setState .ERROR _ h2) rfl rfl rfl
    dsimp only
    split_ifs
    · exact timerInv_of_same (timerInv_setState .STARTED _
        (timerInv_of_same h2 (u := { record (.authCheck .start) (setState .PROCESS s) with
          totalTicks := 0 }) rfl rfl rfl)) rfl rfl rfl
    · exact timerInv_of_same (timerInv_setState .ERROR _ h2) rfl rfl rfl
    · exact timerInv_runReconnectTimeout _ h4
    · exact h4
    · exact h2

theorem timerInv_tick (cfg : Settings) (env : TickEnv) (s : Seeker) (h : TimerInv s) :
    TimerInv (tick cfg env s) := by
  obtain ⟨-, c2, c3, c4, -⟩ := afterRefresh_core env s
  have h1 : TimerInv (afterRefresh env s) := timerInv_of_same h c2 c3 c4
  rw [tick_eq]
  split_ifs
  · exact timerInv_of_same h1 rfl rfl rfl
  · exact timerInv_stop _ _ _ (timerInv_of_same h1 rfl rfl rfl)
  · exact timerInv_stop _ _ _ (timerInv_of_same h1 rfl rfl rfl)
  · exact h1

theorem timerInv_fireReconnect (id : Nat) (resp : HttpResult) (s : Seeker)
    (h : TimerInv s) : TimerInv (fireReconnect id resp s) := by
  unfold fireReconnect
  split
  · apply timerInv_start
    obtain ⟨h1, h2, h3⟩ := h
    refine ⟨fun t ht => h1 t (List.mem_filter.mp ht).1, ?_,
      fun t ht => h3 t (List.mem_filter.mp ht).1⟩
    exact Nat.le_trans (List.length_filter_le _ _) h2
  · exact h

theorem timerInv_new (cfg : Settings) (name : String) (params : Params) :
    TimerInv (Seeker.new cfg name params) :=
  ⟨timersOwned_new cfg name params, Nat.zero_le 1, fun _ ht => by cases ht⟩

theorem timerInv_runOps (ops : List Op) (s : Seeker) (h : TimerInv s) :
    TimerInv (runOps ops s) := by
  induction ops generalizing s with
  | nil => exact h
  | cons op ops ih =>
    apply ih
    cases op with
    | start a resp => exact timerInv_start a resp s h
    | stop w r => exact timerInv_stop w r s h
    | setState st => exact timerInv_setState st s h
    | tick cfg env => exact timerInv_tick cfg env s h
    | fire id resp => exact timerInv_fireReconnect id resp s h

/-! ### The loop of the seek cycle -/

theorem checked_nil : Checked [] := by
  constructor
  · intro before req after h
    cases before <;> cases h
  · intro before after h
    cases before <;> cases h

/-- An act that is neither a request nor a failed check may come first. -/
theorem checked_cons (x : SeekAct) (acts : List SeekAct) (hx : x.isRequest = false)
    (hx2 : x ≠ .isStarted false) (h : Checked acts) : Checked (x :: acts) := by
  obtain ⟨h1, h2⟩ := h
  constructor
  · intro before req after e hreq
    cases before with
    | nil =>
      rw [List.nil_append, List.cons.injEq] at e
      rw [e.1, hreq] at hx
      cases hx
    | cons b bs =>
      rw [List.cons_append, List.cons.injEq] at e
      obtain ⟨earlier, he⟩ := h1 bs req after e.2 hreq
      exact ⟨b :: earlier, by rw [he]; rfl⟩
  · intro before after e
    cases before with
    | nil =>
      rw [List.nil_append, List.cons.injEq] at e
      exact absurd e.1 hx2
    | cons b bs =>
      rw [List.cons_append, List.cons.injEq] at e
      exact h2 bs after e.2

/-- A request may come right after a check that answered `true`. -/
theorem checked_request (req : SeekAct) (acts : List SeekAct) (hr : req.isRequest = true)
    (h : Checked acts) : Checked (.isStarted true :: req :: acts) := by
  obtain ⟨h1, h2⟩ := h
  constructor
  · intro before r after e hreq
    cases before with
    | nil =>
      rw [List.nil_append, List.cons.injEq] at e
      rw [← e.1] at hreq
      cases hreq
    | cons b bs =>
      rw [List.cons_append, List.cons.injEq] at e
      cases bs with
      | nil => exact ⟨[], by rw [← e.1]; rfl⟩
      | cons c cs =>
        obtain ⟨e1, e2⟩ := e
        rw [List.cons_append, List.cons.injEq] at e2
        obtain ⟨earlier, he⟩ := h1 cs r after e2.2 hreq
        exact ⟨b :: c :: earlier, by rw [he]; rfl⟩
  · intro before after e
    cases before with
    | nil =>
      rw [List.nil_append, List.cons.injEq] at e
      cases e.1
    | cons b bs =>
      rw [List.cons_append, List.cons.injEq] at e
      cases bs with
      | nil =>
        obtain ⟨-, e2⟩ := e
        rw [List.nil_append, List.cons.injEq] at e2
        rw [e2.1] at hr
        cases hr
      | cons c cs =>
        obtain ⟨-, e2⟩ := e
        rw [List.cons_append, List.cons.injEq] at e2
        exact h2 cs after e2.2

/-- A failed check ends the run. -/
theorem checked_stop : Checked [.isStarted false] := by
  constructor
  · intro before req after e hreq
    cases before with
    | nil =>
      rw [List.nil_append, List.cons.injEq] at e
      rw [← e.1] at hreq
      cases hreq
    | cons b bs =>
      rw [List.cons_append, List.cons.injEq] at e
      cases bs <;> cases e.2
  · intro before after e
    cases before with
    | nil =>
      rw [List.nil_append, List.cons.injEq] at e
      exact e.2.symm
    | cons b bs =>
      rw [List.cons_append, List.cons.injEq] at e
      cases bs <;> cases e.2

/-- The loop of `seekService` is checked. -/
theorem seekLoop_checked (websiteUrl : String) (started entered : Nat → Bool)
    (giveaways : List Giveaway) (k : Nat) :
    Checked (seekLoop websiteUrl started entered giveaways k) := by
  induction giveaways generalizing k with
  | nil => exact checked_nil
  | cons ga rest ih =>
    by_cases hs : started k = true
    · have h1 : Checked (.entryInterval :: seekLoop websiteUrl started entered rest (k + 1)) :=
        checked_cons _ _ rfl (fun h => by cases h) (ih (k + 1))
      by_cases he : entered k = true
      · simp only [seekLoop, hs, he, Bool.not_true, if_true, List.singleton_append]
        exact checked_request _ _ rfl (checked_cons _ _ rfl (fun h => by cases h) h1)
      · simp only [seekLoop, hs, he, Bool.not_true, if_false, List.nil_append]
        exact checked_request _ _ rfl h1
    · have hf : started k = false := Bool.eq_false_iff.mpr hs
      simp only [seekLoop, hf, Bool.not_false, if_true]
      exact checked_stop

theorem enterChecked_of_checked (acts : List SeekAct) (h : Checked acts) :
    EnterChecked acts :=
  ⟨fun before url cu after e => h.1 before (.enter url cu) after e rfl, h.2⟩

theorem enterChecked_nil : EnterChecked [] :=
  enterChecked_of_checked [] checked_nil

/-- A request of another kind may come first. -/
theorem enterChecked_httpGet (url : String) (acts : List SeekAct) (h : EnterChecked acts) :
    EnterChecked (.httpGet url :: acts) := by
  obtain ⟨h1, h2⟩ := h
  constructor
  · intro before u cu after e
    cases before with
    | nil =>
      rw [List.nil_append, List.cons.injEq] at e
      cases e.1
    | cons b bs =>
      rw [List.cons_append, List.cons.injEq] at e
      obtain ⟨earlier, he⟩ := h1 bs u cu after e.2
      exact ⟨b :: earlier, by rw [he]; rfl⟩
  · intro before after e
    cases before with
    | nil =>
      rw [List.nil_append, List.cons.injEq] at e
      cases e.1
    | cons b bs =>
      rw [List.cons_append, List.cons.injEq] at e
      exact h2 bs after e.2

theorem enterChecked_seekService (websiteUrl : String) (filterOk : Bool)
    (page : Option (List Giveaway)) (started entered : Nat → Bool) :
    EnterChecked (seekService websiteUrl filterOk page started entered) := by
  unfold seekService
  apply enterChecked_httpGet
  cases filterOk with
  | false => exact enterChecked_nil
  | true =>
    simp only [Bool.not_true, if_false]
    apply enterChecked_httpGet
    cases page with
    | none => exact enterChecked_nil
    | some parsed => exact enterChecked_of_checked _ (seekLoop_checked _ _ _ _ _)

/-! ## The claims -/

/-- C1, as stated, fails: an engine in state `PROCESS` (Busy) does not reject
`start(false)`. With an auth check that finds `authContent` in the body, the
call returns `1` instead of `false`, performs the auth check, publishes
`state.changed(STARTED)` and the "started" log, and leaves state `STARTED`. -/
theorem start_busy_not_rejected :
    busyDemo.state = .PROCESS ∧
    (start (.bool false) (.resolved "<a href=/logout>") busyDemo).1 = .num 1 ∧
    (start (.bool false) (.resolved "<a href=/logout>") busyDemo).1 ≠ .bool false ∧
    (start (.bool false) (.resolved "<a href=/logout>") busyDemo).2.state = .STARTED ∧
    (start (.bool false) (.resolved "<a href=/logout>") busyDemo).2.trace =
      busyDemo.trace ++
        [.authCheck .start, .emit (.stateChanged .STARTED),
          .emit (.log "service.started" .undefined)] := by
  decide

/-- C1, amended: for every engine whose state is `STARTED`, every `autostart`
argument and every outcome the auth request could have had, `start(autostart)`
returns `false` and leaves the whole engine as it was: no auth check and no
event enter the trace, no reconnect timer is armed, and `state` and
`totalTicks` keep their values. -/
theorem start_started_rejected (s : Seeker) (autostart : JsVal) (resp : HttpResult)
    (hs : s.state = .STARTED) :
    start autostart resp s = (.bool false, s) := by
  simp [start, isStarted, hs]

/-- The amended C1 at a concrete engine in `STARTED`, with `start(true)`. -/
theorem start_started_rejected_witness :
    startedDemo.state = .STARTED ∧
    start (.bool true) (.resolved "<a href=/logout>") startedDemo =
      (.bool false, startedDemo) :=
  ⟨by decide, start_started_rejected startedDemo (.bool true) (.resolved "<a href=/logout>")
    (by decide)⟩

/-- C2: for every engine not in `STARTED`, every `totalTicks` and every
`autostart`, if the auth check of `start(autostart)` yields `1`, then `start`
returns `1`, the state is `STARTED`, `totalTicks` is `0`, the trace gains the
auth check, `state.changed(STARTED)` and the "started" log (after the
`state.changed(PROCESS)` of the first `setState`), and no reconnect timer is
armed: the pending timers, the stored handle and the handle counter are
unchanged. -/
theorem start_authenticated (s : Seeker) (autostart : JsVal) (resp : HttpResult)
    (hs : s.state ≠ .STARTED)
    (ha : (authCheck .start resp (setState .PROCESS s)).1 = 1) :
    (start autostart resp s).1 = .num 1 ∧
    (start autostart resp s).2.state = .STARTED ∧
    (start autostart resp s).2.totalTicks = 0 ∧
    (start autostart resp s).2.trace =
      (setState .PROCESS s).trace ++
        [.authCheck .start, .emit (.stateChanged .STARTED),
          .emit (.log "service.started" .undefined)] ∧
    (start autostart resp s).2.pending = s.pending ∧
    (start autostart resp s).2.reconnectTimeout = s.reconnectTimeout ∧
    (start autostart resp s).2.nextTimer = s.nextTimer := by
  rw [authCheck_fst_setState] at ha
  rw [start_of_not_started autostart resp s hs]
  by_cases hp : s.state = .PROCESS
  · simp [ha, setStateStarted, setState, log, emit, record, hp]
  · simp [ha, setStateStarted, setState, log, emit, record, hp]

/-- C2 at a fresh engine, `start(false)` and a body that contains `authContent`. -/
theorem start_authenticated_witness :
    demo.state ≠ .STARTED ∧
    (authCheck .start (.resolved "<a href=/logout>") (setState .PROCESS demo)).1 = 1 ∧
    ((start (.bool false) (.resolved "<a href=/logout>") demo).1 = .num 1 ∧
    (start (.bool false) (.resolved "<a href=/logout>") demo).2.state = .STARTED ∧
    (start (.bool false) (.resolved "<a href=/logout>") demo).2.totalTicks = 0 ∧
    (start (.bool false) (.resolved "<a href=/logout>") demo).2.trace =
      (setState .PROCESS demo).trace ++
        [.authCheck .start, .emit (.stateChanged .STARTED),
          .emit (.log "service.started" .undefined)] ∧
    (start (.bool false) (.resolved "<a href=/logout>") demo).2.pending = demo.pending ∧
    (start (.bool false) (.resolved "<a href=/logout>") demo).2.reconnectTimeout =
      demo.reconnectTimeout ∧
    (start (.bool false) (.resolved "<a href=/logout>") demo).2.nextTimer =
      demo.nextTimer) :=
  ⟨by decide, by decide,
    start_authenticated demo (.bool false) (.resolved "<a href=/logout>") (by decide)
      (by decide)⟩

/-- C3, the code at the failing input: a fresh engine, `start(true)`, and an
auth check that yields `0` (the body lacks `authContent`). The `case`
expression `authState === 0 && autostart` is `true`, which is not `=== 0`, so
no `case` is taken: `start` returns `0`, the state stays `PROCESS` and the only
effects are `state.changed(PROCESS)` and the auth check; no "cannot start"
log is published and the state is not `ERROR`. -/
theorem start_autostart_denied_stays_busy :
    (authCheck .start (.resolved "<a href=/login>") (setState .PROCESS demo)).1 = 0 ∧
    start (.bool true) (.resolved "<a href=/login>") demo =
      (.num 0,
        { demo with
          state := .PROCESS
          trace := [.emit (.stateChanged .PROCESS), .authCheck .start] }) ∧
    (start (.bool true) (.resolved "<a href=/login>") demo).2.state ≠ .ERROR ∧
    Effect.emit (.log "service.cant_start" (.bool true)) ∉
      (start (.bool true) (.resolved "<a href=/login>") demo).2.trace := by
  decide

/-- C4: for every engine not in `STARTED`, if the auth check of
`start(autostart)` yields `-1`, then `start` returns `-1`, the state is
`ERROR`, the trace gains the auth check, `state.changed(ERROR)` and the
error-flagged "connection error" log, and a reconnect timer is armed (a
`setTimeout` handle is taken) exactly when `autostart` is truthy: then the
stored handle is cleared, a new timer with delay 300000 is scheduled and its
handle stored, and in an engine whose pending timers are owned (as they are
from construction on) it is the one pending timer; otherwise the pending
timers, the stored handle and the handle counter are unchanged. -/
theorem start_connection_error (s : Seeker) (autostart : JsVal) (resp : HttpResult)
    (hs : s.state ≠ .STARTED)
    (ha : (authCheck .start resp (setState .PROCESS s)).1 = -1) :
    (start autostart resp s).1 = .num (-1) ∧
    (start autostart resp s).2.state = .ERROR ∧
    (start autostart resp s).2.trace =
      (setState .PROCESS s).trace ++
        [.authCheck .start, .emit (.stateChanged .ERROR),
          .emit (.log "service.connection_error" (.bool true))] ++
        (if autostart.truthy then [.emit (.log "service.reconnect_in_5_min" .undefined)]
          else []) ∧
    ((start autostart resp s).2.nextTimer = s.nextTimer + 1 ↔ autostart.truthy = true) ∧
    (autostart.truthy = true →
      (start autostart resp s).2.pending =
        clearTimeout s.reconnectTimeout s.pending ++ [⟨s.nextTimer, 300000⟩] ∧
      (start autostart resp s).2.reconnectTimeout = some s.nextTimer ∧
      (TimersOwned s →
        (start autostart resp s).2.pending = [⟨s.nextTimer, 300000⟩] ∧
        (start autostart resp s).2.pending.length = 1)) ∧
    (autostart.truthy = false →
      (start autostart resp s).2.pending = s.pending ∧
      (start autostart resp s).2.reconnectTimeout = s.reconnectTimeout ∧
      (start autostart resp s).2.nextTimer = s.nextTimer) := by
  rw [authCheck_fst_setState] at ha
  rw [start_of_not_started autostart resp s hs]
  have hclear : TimersOwned s → clearTimeout s.reconnectTimeout s.pending = [] := by
    intro ht
    simp only [clearTimeout, List.filter_eq_nil_iff]
    intro t htm
    simp [ht t htm]
  by_cases hp : s.state = .PROCESS <;> by_cases hb : autostart.truthy = true
  all_goals
    simp [ha, hb, hp, runReconnectTimeout, setState, log, emit, record]
  all_goals
    intro ht
    simp [hclear ht]

/-- C4 at a fresh engine, `start(true)` and a request rejected without status. -/
theorem start_connection_error_witness :
    demo.state ≠ .STARTED ∧
    (authCheck .start (.rejected .undefined) (setState .PROCESS demo)).1 = -1 ∧
    TimersOwned demo ∧
    (start (.bool true) (.rejected .undefined) demo).2.state = .ERROR ∧
    (start (.bool true) (.rejected .undefined) demo).2.pending = [⟨0, 300000⟩] :=
  ⟨by decide, by decide, by decide,
    (start_connection_error demo (.bool true) (.rejected .undefined) (by decide)
      (by decide)).2.1,
    (((start_connection_error demo (.bool true) (.rejected .undefined) (by decide)
      (by decide)).2.2.2.2.1 (by decide)).2.2 (by decide)).1⟩

/-- C5, as stated, fails: an engine in state `PROCESS` (Busy) is not stopped by
`stop(false, true)`. The guard `if (!this.isStarted()) return false` returns
before anything is done: the state stays `PROCESS` (not `PAUSED`), no "stopped"
log is published and no reconnect timer is armed. -/
theorem stop_busy_does_nothing :
    busyDemo.state = .PROCESS ∧
    stop (.bool false) (.bool true) busyDemo = (.bool false, busyDemo) ∧
    (stop (.bool false) (.bool true) busyDemo).2.state ≠ .PAUSED ∧
    Effect.emit (.log "service.stopped" .undefined) ∉
      (stop (.bool false) (.bool true) busyDemo).2.trace ∧
    (stop (.bool false) (.bool true) busyDemo).2.pending = [] := by
  decide

/-- C5, amended: for every engine in state `STARTED` and all arguments
`withError`, `reconnect`, `stop(withError, reconnect)` leaves the engine in
`ERROR` if `withError` is truthy and in `PAUSED` otherwise, publishes
`state.changed` for that state and the "stopped" log, and arms the reconnect
timer exactly when `reconnect` is truthy: the stored handle is cleared from
the pending timers and a new timer with delay 300000 is scheduled and stored;
otherwise the timers are untouched. -/
theorem stop_started (s : Seeker) (withError reconnect : JsVal)
    (hs : s.state = .STARTED) :
    (stop withError reconnect s).1 = .undefined ∧
    (stop withError reconnect s).2.state =
      (if withError.truthy then State.ERROR else State.PAUSED) ∧
    (stop withError reconnect s).2.trace =
      s.trace ++
        [.emit (.stateChanged (if withError.truthy then State.ERROR else State.PAUSED)),
          .emit (.log "service.stopped" .undefined)] ++
        (if reconnect.truthy then [.emit (.log "service.reconnect_in_5_min" .undefined)]
          else []) ∧
    (reconnect.truthy = true →
      (stop withError reconnect s).2.pending =
        clearTimeout s.reconnectTimeout s.pending ++ [⟨s.nextTimer, 300000⟩] ∧
      (stop withError reconnect s).2.reconnectTimeout = some s.nextTimer ∧
      (stop withError reconnect s).2.nextTimer = s.nextTimer + 1) ∧
    (reconnect.truthy = false →
      (stop withError reconnect s).2.pending = s.pending ∧
      (stop withError reconnect s).2.reconnectTimeout = s.reconnectTimeout ∧
      (stop withError reconnect s).2.nextTimer = s.nextTimer) := by
  by_cases hw : withError.truthy = true <;> by_cases hr : reconnect.truthy = true
  all_goals
    simp [stop, isStarted, hs, hw, hr, runReconnectTimeout, setState, log, emit, record]

/-- The amended C5 at a concrete engine in `STARTED`, with `stop(true, true)`. -/
theorem stop_started_witness :
    startedDemo.state = .STARTED ∧
    (stop (.bool true) (.bool true) startedDemo).2.state = .ERROR ∧
    (stop (.bool true) (.bool true) startedDemo).2.pending = [⟨0, 300000⟩] :=
  ⟨by decide,
    (stop_started startedDemo (.bool true) (.bool true) (by decide)).2.1,
    ((stop_started startedDemo (.bool true) (.bool true) (by decide)).2.2.2.1
      (by decide)).1⟩

/-- C6: for every engine in state `PAUSED`, in particular a freshly
constructed one, and all arguments `withError`, `reconnect`,
`stop(withError, reconnect)` returns `false` and leaves the whole engine as it
was: state, `totalTicks`, `currentValue`, the trace (no event) and the timers
(none armed, also when `reconnect` is truthy). -/
theorem stop_paused_noop (s : Seeker) (withError reconnect : JsVal)
    (hs : s.state = .PAUSED ∨
      ∃ cfg name params, s = Seeker.new cfg name params) :
    stop withError reconnect s = (.bool false, s) := by
  have hp : s.state = .PAUSED := by
    rcases hs with h | ⟨cfg, name, params, h⟩
    · exact h
    · rw [h]; rfl
  simp [stop, isStarted, hp]

/-- C6 at a fresh engine, with `stop(true, true)`. -/
theorem stop_paused_noop_witness :
    (demo.state = .PAUSED ∨ ∃ cfg name params, demo = Seeker.new cfg name params) ∧
    stop (.bool true) (.bool true) demo = (.bool false, demo) :=
  ⟨Or.inl (by decide), stop_paused_noop demo (.bool true) (.bool true) (Or.inl (by decide))⟩

/-- C7: `setState` is idempotent. Setting the current state again changes
nothing (no event, no mutation); setting a different state appends exactly
one `state.changed` event carrying it and stores it, all else unchanged; and
`setState(st)` twice is `setState(st)` once, state and trace included. -/
theorem setState_idempotent (s : Seeker) (st : State) :
    (s.state = st → setState st s = s) ∧
    (s.state ≠ st →
      setState st s =
        { s with state := st, trace := s.trace ++ [.emit (.stateChanged st)] }) ∧
    setState st (setState st s) = setState st s := by
  refine ⟨?_, ?_, ?_⟩
  · intro h
    simp [setState, h]
  · intro h
    simp [setState, h, emit, record]
  · by_cases h : s.state = st
    · simp [setState, h]
    · simp [setState, h, emit, record]

/-- C7 at a fresh engine: `setState(PAUSED)`, `setState(STARTED)`, and the latter twice. -/
theorem setState_idempotent_witness :
    setState .PAUSED demo = demo ∧
    setState .STARTED demo =
      { demo with state := .STARTED, trace := [.emit (.stateChanged .STARTED)] } ∧
    setState .STARTED (setState .STARTED demo) = setState .STARTED demo :=
  ⟨(setState_idempotent demo .PAUSED).1 (by decide),
    (setState_idempotent demo .STARTED).2.1 (by decide),
    (setState_idempotent demo .STARTED).2.2⟩

/-- C8: for every `totalTicks` value `t` with `0 ≤ t ≤ 32760`, one worker tick
sets `totalTicks` to `t + 1` when `t < 32760` and to `0` when `t = 32760`, and
the trace gains exactly one `tick` event, which carries the new value;
`0 ≤ totalTicks ≤ 32760` is kept by `tick`, `start`, `stop` and `setState` (and
by the firing of a reconnect timeout), hence by every sequence of them. -/
theorem totalTicks_wraps_and_bounded (s : Seeker)
    (h0 : 0 ≤ s.totalTicks) (h1 : s.totalTicks ≤ 32760) :
    (∀ cfg env,
      (s.totalTicks < 32760 → (tick cfg env s).totalTicks = s.totalTicks + 1) ∧
      (s.totalTicks = 32760 → (tick cfg env s).totalTicks = 0) ∧
      (∃ rest, (tick cfg env s).trace =
          s.trace ++ .emit (.tick (tick cfg env s).totalTicks) :: rest ∧
        ∀ n, Effect.emit (.tick n) ∉ rest) ∧
      0 ≤ (tick cfg env s).totalTicks ∧ (tick cfg env s).totalTicks ≤ 32760) ∧
    (∀ autostart resp,
      0 ≤ (start autostart resp s).2.totalTicks ∧
      (start autostart resp s).2.totalTicks ≤ 32760) ∧
    (∀ withError reconnect,
      0 ≤ (stop withError reconnect s).2.totalTicks ∧
      (stop withError reconnect s).2.totalTicks ≤ 32760) ∧
    (∀ st, 0 ≤ (setState st s).totalTicks ∧ (setState st s).totalTicks ≤ 32760) ∧
    (∀ ops : List Op,
      0 ≤ (runOps ops s).totalTicks ∧ (runOps ops s).totalTicks ≤ 32760) := by
  refine ⟨fun cfg env => ⟨?_, ?_, tick_trace cfg env s, ?_⟩, ?_, ?_, ?_, ?_⟩
  · intro h
    rw [tick_totalTicks]
    simp [nextTicks, h]
  · intro h
    rw [tick_totalTicks]
    simp [nextTicks, h]
  · exact op_totalTicks_bounds (.tick cfg env) s ⟨h0, h1⟩
  · intro a resp
    exact op_totalTicks_bounds (.start a resp) s ⟨h0, h1⟩
  · intro w r
    exact op_totalTicks_bounds (.stop w r) s ⟨h0, h1⟩
  · intro st
    exact op_totalTicks_bounds (.setState st) s ⟨h0, h1⟩
  · intro ops
    exact runOps_totalTicks_bounds ops s ⟨h0, h1⟩

/-- C8 at the wrap (counter 32760) and at a fresh engine (counter 0). -/
theorem totalTicks_wraps_and_bounded_witness :
    0 ≤ lastTickDemo.totalTicks ∧ lastTickDemo.totalTicks ≤ 32760 ∧
    (tick [] idleEnv lastTickDemo).totalTicks = 0 ∧
    (tick [] idleEnv demo).totalTicks = demo.totalTicks + 1 :=
  ⟨by decide, by decide,
    ((totalTicks_wraps_and_bounded lastTickDemo (by decide) (by decide)).1 [] idleEnv).2.1
      (by decide),
    ((totalTicks_wraps_and_bounded demo (by decide) (by decide)).1 [] idleEnv).1
      (by decide)⟩

/-- C9: for every tick value `c` (in `[0, 32760]` or not), every lifecycle state (and
every `serviceStarted` flag) and every configured timer value `m` in
`[5, 60]`, `serviceActions(c, started)` makes the profile refresh's auth check
once if `c mod 300 = 0` and not at all otherwise, whatever the state, and
makes the seek cadence's auth check once if `started` is true and
`c mod (m * 60) = 0` and not at all otherwise; with `m = 10` that is: `started`
and `c` a multiple of 600. A tick evaluates both on the value `totalTicks` had
before the increment and on `isStarted()`. -/
theorem serviceActions_cadences (cfg : Settings) (env : TickEnv) (c : Int)
    (started : Bool) (s : Seeker) (m : Int)
    (hm : 5 ≤ m ∧ m ≤ 60)
    (ht : getConfig cfg s.name (some s.settings) "timer" (some 10) = some m) :
    refreshes (serviceActions cfg env c started s) =
      refreshes s + (if c % 300 = 0 then 1 else 0) ∧
    seekChecks (serviceActions cfg env c started s) =
      seekChecks s + (if started = true ∧ c % (m * 60) = 0 then 1 else 0) ∧
    (m = 10 →
      seekChecks (serviceActions cfg env c started s) =
        seekChecks s + (if started = true ∧ (600 : Int) ∣ c then 1 else 0)) ∧
    (s.totalTicks = c →
      refreshes (tick cfg env s) = refreshes s + (if c % 300 = 0 then 1 else 0) ∧
      seekChecks (tick cfg env s) =
        seekChecks s + (if s.state = .STARTED ∧ c % (m * 60) = 0 then 1 else 0)) := by
  have hm0 : m ≠ 0 := by omega
  refine ⟨serviceActions_refreshes cfg env c started s,
    serviceActions_seekChecks cfg env c started s m hm0 ht, ?_, ?_⟩
  · intro h10
    rw [serviceActions_seekChecks cfg env c started s m hm0 ht, h10]
    simp only [Int.dvd_iff_emod_eq_zero]
    rfl
  · intro hcs
    rw [tick_refreshes, tick_seekChecks cfg env s m hm0 ht, hcs]
    simp [isStarted]

/-- C9 at tick value 600 of a started engine with the default timer of 10 minutes. -/
theorem serviceActions_cadences_witness :
    (5 ≤ (10 : Int) ∧ (10 : Int) ≤ 60) ∧
    getConfig [] startedDemo.name (some startedDemo.settings) "timer" (some 10) = some 10 ∧
    refreshes (serviceActions [] idleEnv 600 true startedDemo) = refreshes startedDemo + 1 ∧
    seekChecks (serviceActions [] idleEnv 600 true startedDemo) =
      seekChecks startedDemo + 1 :=
  ⟨by decide, by decide,
    (serviceActions_cadences [] idleEnv 600 true startedDemo 10 (by decide)
      (by decide)).1,
    (serviceActions_cadences [] idleEnv 600 true startedDemo 10 (by decide)
      (by decide)).2.1⟩

/-- C10, the code on the failing run: a fresh engine ticking 32762 times
without interruption. The tick made on counter value 32700 (tick 32701 of the
run) makes a profile refresh; none of the 60 ticks after it does; the counter
wraps to 0 after tick 32761; and the very next tick makes a refresh again. The
two consecutive refreshes are 61 ticks apart, not 300. -/
theorem refresh_gap_at_wraparound :
    demo.totalTicks = 0 ∧
    (runFor [] (fun _ => idleEnv) 32700 demo).totalTicks = 32700 ∧
    refreshes (runFor [] (fun _ => idleEnv) 32701 demo) =
      refreshes (runFor [] (fun _ => idleEnv) 32700 demo) + 1 ∧
    (∀ n, 32701 ≤ n → n ≤ 32761 →
      refreshes (runFor [] (fun _ => idleEnv) n demo) =
        refreshes (runFor [] (fun _ => idleEnv) 32701 demo)) ∧
    (runFor [] (fun _ => idleEnv) 32761 demo).totalTicks = 0 ∧
    refreshes (runFor [] (fun _ => idleEnv) 32762 demo) =
      refreshes (runFor [] (fun _ => idleEnv) 32761 demo) + 1 :=
  ⟨by decide, runFor_refresh_gap [] (fun _ => idleEnv) demo (by decide)⟩

/-- C11: for every engine in state `STARTED` at a tick where the seek cadence
fires, if the seek cadence's auth check yields `0`, then the seek cycle is not
invoked, the trace ends with that auth check, the error-flagged "session
expired" log, `state.changed(ERROR)` and the "stopped" log, the engine is in
`ERROR`, and no reconnect timer is armed: the pending timers, the stored
handle and the handle counter are unchanged. -/
theorem seek_session_expired (cfg : Settings) (env : TickEnv) (s : Seeker)
    (hs : s.state = .STARTED)
    (hc : jsRem s.totalTicks (workerInterval cfg s) = some 0)
    (ha : (authCheck .serviceActions env.seekAuth s).1 = 0) :
    (tick cfg env s).state = .ERROR ∧
    (∃ mid, (tick cfg env s).trace =
      s.trace ++ mid ++
        [.authCheck .serviceActions, .emit (.log "service.session_expired" (.bool true)),
          .emit (.stateChanged .ERROR), .emit (.log "service.stopped" .undefined)]) ∧
    (tick cfg env s).trace.count .seekService = s.trace.count .seekService ∧
    (tick cfg env s).pending = s.pending ∧
    (tick cfg env s).reconnectTimeout = s.reconnectTimeout ∧
    (tick cfg env s).nextTimer = s.nextTimer := by
  obtain ⟨c1, c2, c3, c4, -⟩ := afterRefresh_core env s
  obtain ⟨mid, hmid⟩ := afterRefresh_trace env s
  have hcount := afterRefresh_seekService env s
  rw [(tick_seek_cases cfg env s hs hc).2.1 ha]
  refine ⟨rfl, ⟨mid, ?_⟩, ?_, c2, c3, c4⟩
  · show (afterRefresh env s).trace ++ _ = _
    rw [hmid]
  · show ((afterRefresh env s).trace ++ _).count _ = _
    rw [List.count_append, hcount]
    simp [List.count_cons]

/-- C11 at the first tick of a freshly started engine (counter `0`, timer 10). -/
theorem seek_session_expired_witness :
    startedDemo.state = .STARTED ∧
    jsRem startedDemo.totalTicks (workerInterval [] startedDemo) = some 0 ∧
    (authCheck .serviceActions expiredEnv.seekAuth startedDemo).1 = 0 ∧
    (tick [] expiredEnv startedDemo).state = .ERROR ∧
    (tick [] expiredEnv startedDemo).pending = startedDemo.pending :=
  ⟨by decide, by decide, by decide,
    (seek_session_expired [] expiredEnv startedDemo (by decide) (by decide) (by decide)).1,
    (seek_session_expired [] expiredEnv startedDemo (by decide) (by decide)
      (by decide)).2.2.2.1⟩

/-- C12: for every engine in state `STARTED` at a tick where the seek cadence
fires: if the seek cadence's auth check yields `-1`, the seek cycle is not
invoked, the trace ends with that auth check, the error-flagged "connection
lost" log, `state.changed(ERROR)`, the "stopped" log and the reconnect
notice, the engine is in `ERROR`, the stored handle is cleared and a new timer
with delay 300000 is scheduled and stored, which in an engine whose pending
timers are owned is the one pending timer; if it yields `1`, the seek cycle is
invoked exactly once, right after the auth check, the state stays `STARTED`
and the timers are untouched. -/
theorem seek_connection_lost_or_run (cfg : Settings) (env : TickEnv) (s : Seeker)
    (hs : s.state = .STARTED)
    (hc : jsRem s.totalTicks (workerInterval cfg s) = some 0) :
    ((authCheck .serviceActions env.seekAuth s).1 = -1 →
      (tick cfg env s).state = .ERROR ∧
      (∃ mid, (tick cfg env s).trace =
        s.trace ++ mid ++
          [.authCheck .serviceActions, .emit (.log "service.connection_lost" (.bool true)),
            .emit (.stateChanged .ERROR), .emit (.log "service.stopped" .undefined),
            .emit (.log "service.reconnect_in_5_min" .undefined)]) ∧
      (tick cfg env s).trace.count .seekService = s.trace.count .seekService ∧
      (tick cfg env s).pending =
        clearTimeout s.reconnectTimeout s.pending ++ [⟨s.nextTimer, 300000⟩] ∧
      (tick cfg env s).reconnectTimeout = some s.nextTimer ∧
      (TimersOwned s →
        (tick cfg env s).pending = [⟨s.nextTimer, 300000⟩] ∧
        (tick cfg env s).pending.length = 1)) ∧
    ((authCheck .serviceActions env.seekAuth s).1 = 1 →
      (tick cfg env s).state = .STARTED ∧
      (∃ mid, (tick cfg env s).trace =
        s.trace ++ mid ++ [.authCheck .serviceActions, .seekService]) ∧
      (tick cfg env s).trace.count .seekService = s.trace.count .seekService + 1 ∧
      (tick cfg env s).pending = s.pending ∧
      (tick cfg env s).reconnectTimeout = s.reconnectTimeout ∧
      (tick cfg env s).nextTimer = s.nextTimer) := by
  obtain ⟨c1, c2, c3, c4, -⟩ := afterRefresh_core env s
  obtain ⟨mid, hmid⟩ := afterRefresh_trace env s
  have hcount := afterRefresh_seekService env s
  refine ⟨fun ha => ?_, fun ha => ?_⟩
  · rw [(tick_seek_cases cfg env s hs hc).2.2 ha]
    refine ⟨rfl, ⟨mid, ?_⟩, ?_, rfl, rfl, fun ht => ?_⟩
    · show (afterRefresh env s).trace ++ _ = _
      rw [hmid]
    · show ((afterRefresh env s).trace ++ _).count _ = _
      rw [List.count_append, hcount]
      simp [List.count_cons]
    · have hclear : clearTimeout s.reconnectTimeout s.pending = [] := by
        simp only [clearTimeout, List.filter_eq_nil_iff]
        intro t htm
        simp [ht t htm]
      show clearTimeout s.reconnectTimeout s.pending ++ _ = _ ∧
        (clearTimeout s.reconnectTimeout s.pending ++ _).length = 1
      rw [hclear]
      exact ⟨rfl, rfl⟩
  · rw [(tick_seek_cases cfg env s hs hc).1 ha]
    refine ⟨c1.trans hs, ⟨mid, ?_⟩, ?_, c2, c3, c4⟩
    · show (afterRefresh env s).trace ++ _ = _
      rw [hmid]
    · show ((afterRefresh env s).trace ++ _).count _ = _
      rw [List.count_append, hcount]
      simp [List.count_cons]

/-- C12 at the first tick of a freshly started engine: with every request
failing the engine ends in `ERROR` with one pending timer. -/
theorem seek_connection_lost_or_run_witness :
    startedDemo.state = .STARTED ∧
    jsRem startedDemo.totalTicks (workerInterval [] startedDemo) = some 0 ∧
    (authCheck .serviceActions idleEnv.seekAuth startedDemo).1 = -1 ∧
    TimersOwned startedDemo ∧
    (tick [] idleEnv startedDemo).state = .ERROR ∧
    (tick [] idleEnv startedDemo).pending.length = 1 :=
  ⟨by decide, by decide, by decide, by decide,
    ((seek_connection_lost_or_run [] idleEnv startedDemo (by decide) (by decide)).1
      (by decide)).1,
    (((seek_connection_lost_or_run [] idleEnv startedDemo (by decide) (by decide)).1
      (by decide)).2.2.2.2.2 (by decide)).2⟩

/-- C14: `authCheck` is three-valued and total over the outcomes of its
request. When the request resolves, it yields `1` if the body contains
`authContent` as a substring and `0` otherwise; when the request is rejected,
it yields `0` if the status of the error is `200` and `-1` otherwise; for every
outcome it yields a value (it does not reject), one of `1`, `0`, `-1`. -/
theorem authCheck_three_valued (site : CallSite) (s : Seeker) :
    (∀ data : String,
      (ContainsMarker data s.authContent →
        (authCheck site (.resolved data) s).1 = 1) ∧
      (¬ ContainsMarker data s.authContent →
        (authCheck site (.resolved data) s).1 = 0)) ∧
    (∀ status : JsVal,
      (status = .num 200 → (authCheck site (.rejected status) s).1 = 0) ∧
      (status ≠ .num 200 → (authCheck site (.rejected status) s).1 = -1)) ∧
    (∀ resp : HttpResult,
      ∃ v : Int, (authCheck site resp s).1 = v ∧ (v = 1 ∨ v = 0 ∨ v = -1)) := by
  refine ⟨fun data => ⟨fun h => ?_, fun h => ?_⟩,
    fun status => ⟨fun h => ?_, fun h => ?_⟩,
    fun resp => ⟨_, rfl, authCheck_range site resp s⟩⟩
  · have := (indexOf_nonneg_iff data s.authContent).mpr h
    simp [authCheck, this]
  · have : ¬ 0 ≤ indexOf data s.authContent :=
      fun h0 => h ((indexOf_nonneg_iff data s.authContent).mp h0)
    simp [authCheck, this]
  · simp [authCheck, JsVal.strictEq, h]
  · simp [authCheck, JsVal.strictEq, h]

/-- C14 at the example engine: a body with the marker, one without, a
rejection with status 200 and one without status. -/
theorem authCheck_three_valued_witness :
    ContainsMarker "<a href=/logout>" demo.authContent ∧
    (authCheck .start (.resolved "<a href=/logout>") demo).1 = 1 ∧
    (authCheck .start (.rejected (.num 200)) demo).1 = 0 ∧
    (authCheck .start (.rejected .undefined) demo).1 = -1 :=
  ⟨⟨"<a href=".toList, ">".toList, by decide⟩,
    ((authCheck_three_valued .start demo).1 "<a href=/logout>").1
      ⟨"<a href=".toList, ">".toList, by decide⟩,
    ((authCheck_three_valued .start demo).2.1 (.num 200)).1 rfl,
    ((authCheck_three_valued .start demo).2.1 .undefined).2 (by decide)⟩

/-- C15, as stated, fails: an engine whose `currentValue` is 42 (fetched
earlier) runs a profile refresh in which the auth check yields `1` and the
profile fetch of the adapter is rejected. The `catch` supplies the default
info with value `0`, `setValue(0)` runs, and `currentValue` changes from 42 to
0 although no profile fetch succeeded; the same happens in a tick whose
profile refresh fires. -/
theorem currentValue_reset_by_failed_fetch :
    valueDemo.currentValue = some 42 ∧
    valueDemo.withValue = .bool true ∧
    (updateUserInfo (.resolved "<a href=/logout>") none valueDemo).currentValue = some 0 ∧
    (updateUserInfo (.resolved "<a href=/logout>") none valueDemo).currentValue ≠
      valueDemo.currentValue ∧
    (tick [] fallbackEnv valueDemo).currentValue = some 0 := by
  decide

/-- C15, amended: `currentValue` is only mutated when `withValue` is truthy
and a profile refresh with auth result `1` occurred. `start` and `stop` never
change it; if a profile refresh, alone or inside a tick, changes it, then
`withValue` is truthy, the auth check of that refresh yielded `1` (inside a
tick: the counter was a multiple of 300), and the new value is `parseInt` of
the value of the published info, which is the info the adapter fetched or,
when the fetch was rejected, the default with value `0`. -/
theorem currentValue_changes_only_by_refresh (s : Seeker) :
    (∀ autostart resp, (start autostart resp s).2.currentValue = s.currentValue) ∧
    (∀ withError reconnect, (stop withError reconnect s).2.currentValue = s.currentValue) ∧
    (∀ resp fetched,
      (updateUserInfo resp fetched s).currentValue ≠ s.currentValue →
        s.withValue.truthy = true ∧
        (authCheck .updateUserInfo resp s).1 = 1 ∧
        (updateUserInfo resp fetched s).currentValue =
          parseInt (fetchedOrDefault fetched s).value) ∧
    (∀ cfg env,
      (tick cfg env s).currentValue ≠ s.currentValue →
        s.withValue.truthy = true ∧
        s.totalTicks % 300 = 0 ∧
        (authCheck .updateUserInfo env.userAuth s).1 = 1 ∧
        (tick cfg env s).currentValue = parseInt (fetchedOrDefault env.userInfo s).value) ∧
    (∀ info : UserInfo, fetchedOrDefault (some info) s = info) ∧
    parseInt (fetchedOrDefault none s).value = some 0 := by
  refine ⟨fun a resp => (keepsValue_start a resp s).1, fun w r => (keepsValue_stop w r s).1,
    fun resp fetched h => ?_, fun cfg env h => ?_, fun _ => rfl, rfl⟩
  · rw [updateUserInfo_currentValue] at h ⊢
    by_cases hc : (authCheck .updateUserInfo resp s).1 = 1 ∧ s.withValue.truthy = true
    · exact ⟨hc.2, hc.1, by rw [if_pos hc]⟩
    · rw [if_neg hc] at h
      exact absurd rfl h
  · rw [(keepsValue_tick cfg env s).1, afterRefresh_currentValue] at h ⊢
    by_cases hc : s.totalTicks % 300 = 0 ∧ (authCheck .updateUserInfo env.userAuth s).1 = 1 ∧
        s.withValue.truthy = true
    · exact ⟨hc.2.2, hc.1, hc.2.1, by rw [if_pos hc]⟩
    · rw [if_neg hc] at h
      exact absurd rfl h

/-- The amended C15 at a fresh engine: a refresh that stores 42. -/
theorem currentValue_changes_only_by_refresh_witness :
    (updateUserInfo (.resolved "<a href=/logout>")
        (some { avatar := "/img/a.png", username := "alice", value := .num 42 })
        demo).currentValue ≠ demo.currentValue ∧
    demo.withValue.truthy = true ∧
    (authCheck .updateUserInfo (.resolved "<a href=/logout>") demo).1 = 1 :=
  ⟨by decide,
    ((currentValue_changes_only_by_refresh demo).2.2.1 (.resolved "<a href=/logout>")
      (some { avatar := "/img/a.png", username := "alice", value := .num 42 })
      (by decide)).1,
    ((currentValue_changes_only_by_refresh demo).2.2.1 (.resolved "<a href=/logout>")
      (some { avatar := "/img/a.png", username := "alice", value := .num 42 })
      (by decide)).2.1⟩

/-- C17: at most one reconnect attempt is pending at any time. For every
sequence of `start`, `stop`, `setState`, tick and timer-firing steps from a
freshly constructed engine, at most one reconnect timeout is pending; arming
in the engine so reached leaves exactly one pending timeout, with delay
300000 and a handle no earlier timeout had, and stores that handle, so the
timeout pending before is cancelled; and the firing of a pending timeout
removes it and runs `start(true)`. -/
theorem at_most_one_reconnect_pending (cfg : Settings) (name : String) (params : Params)
    (ops : List Op) :
    (runOps ops (Seeker.new cfg name params)).pending.length ≤ 1 ∧
    (runReconnectTimeout (runOps ops (Seeker.new cfg name params))).pending =
      [⟨(runOps ops (Seeker.new cfg name params)).nextTimer, 300000⟩] ∧
    (runReconnectTimeout (runOps ops (Seeker.new cfg name params))).reconnectTimeout =
      some (runOps ops (Seeker.new cfg name params)).nextTimer ∧
    (∀ t ∈ (runOps ops (Seeker.new cfg name params)).pending,
      t.id ≠ (runOps ops (Seeker.new cfg name params)).nextTimer) ∧
    (∀ (s : Seeker) (t : Timer) (resp : HttpResult), t ∈ s.pending →
      fireReconnect t.id resp s =
        (start (.bool true) resp
          { s with pending := s.pending.filter (fun u => u.id != t.id) }).2) := by
  obtain ⟨h1, h2, h3⟩ := timerInv_runOps ops _ (timerInv_new cfg name params)
  refine ⟨h2, runReconnectTimeout_pending _ h1, rfl, fun t ht => Nat.ne_of_lt (h3 t ht), ?_⟩
  intro s t resp ht
  have : s.pending.any (fun u => u.id == t.id) = true :=
    List.any_eq_true.mpr ⟨t, ht, by simp⟩
  simp [fireReconnect, this]

/-- C17 on a run that arms twice: an autostart with a failed request, the
firing of its timeout with the request failing again. -/
theorem at_most_one_reconnect_pending_witness :
    (runOps [.start (.bool true) (.rejected .undefined), .fire 0 (.rejected .undefined)]
      demo).pending = [⟨1, 300000⟩] ∧
    (runOps [.start (.bool true) (.rejected .undefined), .fire 0 (.rejected .undefined)]
      demo).pending.length ≤ 1 :=
  ⟨by decide,
    (at_most_one_reconnect_pending [] "Seeker"
      { withValue := .undefined, domain := "example.org",
        websiteUrl := "https://example.org", authPageUrl := "https://example.org/login",
        winsPageUrl := "https://example.org/wins", authContent := "/logout" }
      [.start (.bool true) (.rejected .undefined), .fire 0 (.rejected .undefined)]).1⟩

/-- C18, as stated, fails: the cycle opens with two requests that no
`isStarted()` check precedes. With one free giveaway on the page and
`isStarted()` answering `false` whenever asked, the filter request and the
giveaway-list request are sent all the same, and only then comes the first
check; so not every request directly follows a check that answered `true`. -/
theorem seekService_requests_before_check :
    seekService "https://www.opiumpulses.com" true (some [freeGiveaway])
        (fun _ => false) (fun _ => true) =
      [.httpGet "https://www.opiumpulses.com/giveaway/filterGiveaways",
        .httpGet "https://www.opiumpulses.com/giveaways", .isStarted false] ∧
    ¬ (∀ before req after,
        seekService "https://www.opiumpulses.com" true (some [freeGiveaway])
            (fun _ => false) (fun _ => true) = before ++ req :: after →
        req.isRequest = true → ∃ earlier, before = earlier ++ [.isStarted true]) := by
  have e : seekService "https://www.opiumpulses.com" true (some [freeGiveaway])
        (fun _ => false) (fun _ => true) =
      [.httpGet "https://www.opiumpulses.com/giveaway/filterGiveaways",
        .httpGet "https://www.opiumpulses.com/giveaways", .isStarted false] := by
    decide
  refine ⟨e, fun h => ?_⟩
  obtain ⟨earlier, he⟩ := h []
    (.httpGet "https://www.opiumpulses.com/giveaway/filterGiveaways")
    [.httpGet "https://www.opiumpulses.com/giveaways", .isStarted false] e rfl
  cases earlier <;> cases he

/-- C18, amended: for every page of parsed giveaways, every outcome of the two
opening requests and every sequence of `isStarted()` answers, each enter
request of the cycle directly follows an `isStarted()` check that answered
`true`, and once `isStarted()` answers `false` the cycle does nothing more,
so no further request is sent. -/
theorem seekService_enter_checked (websiteUrl : String) (filterOk : Bool)
    (page : Option (List Giveaway)) (started entered : Nat → Bool) :
    (∀ before url checkUser after,
      seekService websiteUrl filterOk page started entered =
        before ++ .enter url checkUser :: after →
      ∃ earlier, before = earlier ++ [.isStarted true]) ∧
    (∀ before after,
      seekService websiteUrl filterOk page started entered =
        before ++ .isStarted false :: after → after = []) :=
  enterChecked_seekService websiteUrl filterOk page started entered

/-- The amended C18 on a page with two free giveaways, the engine being
stopped before the second is entered. -/
theorem seekService_enter_checked_witness :
    seekService "https://www.opiumpulses.com" true (some [freeGiveaway, freeGiveaway])
        (fun k => decide (k = 0)) (fun _ => true) =
      [.httpGet "https://www.opiumpulses.com/giveaway/filterGiveaways",
        .httpGet "https://www.opiumpulses.com/giveaways", .isStarted true,
        .enter "https://www.opiumpulses.com/giveaways/enter/game-1" (.str "7"),
        .log "Game" "https://www.opiumpulses.com/giveaways/game-1", .entryInterval,
        .isStarted false] ∧
    (∀ before after,
      seekService "https://www.opiumpulses.com" true (some [freeGiveaway, freeGiveaway])
          (fun k => decide (k = 0)) (fun _ => true) =
        before ++ .isStarted false :: after → after = []) :=
  ⟨by decide,
    (seekService_enter_checked "https://www.opiumpulses.com" true
      (some [freeGiveaway, freeGiveaway]) (fun k => decide (k = 0)) (fun _ => true)).2⟩

/-- C20: for every engine not in `STARTED`, if `start` is called with
`autostart` `false` or `undefined` and the auth check yields `0`, then `start`
returns `0` and leaves the engine in `PROCESS` (Busy): the trace gains
`state.changed(PROCESS)` (not even that if the state was `PROCESS` already)
and the auth check, no log; the timers, `totalTicks` and all other fields are
unchanged; and a following `start` is not rejected: it returns the result of
its own auth check, not `false`. -/
theorem start_manual_denied_stays_busy (s : Seeker) (autostart : JsVal)
    (resp : HttpResult)
    (hs : s.state ≠ .STARTED)
    (hauto : autostart = .bool false ∨ autostart = .undefined)
    (ha : (authCheck .start resp (setState .PROCESS s)).1 = 0) :
    start autostart resp s =
      (.num 0,
        { s with
          state := .PROCESS
          trace := s.trace ++
            (if s.state = .PROCESS then [] else [.emit (.stateChanged .PROCESS)]) ++
            [.authCheck .start] }) ∧
    (∀ autostart2 resp2,
      (start autostart2 resp2 (start autostart resp s).2).1 =
        .num (authCheck .start resp2 (start autostart resp s).2).1 ∧
      (start autostart2 resp2 (start autostart resp s).2).1 ≠ .bool false) := by
  rw [authCheck_fst_setState] at ha
  have hno : ¬ autostart = .num 0 := by
    rcases hauto with h | h <;> rw [h] <;> decide
  have e : start autostart resp s =
      (.num 0,
        { s with
          state := .PROCESS
          trace := s.trace ++
            (if s.state = .PROCESS then [] else [.emit (.stateChanged .PROCESS)]) ++
            [.authCheck .start] }) := by
    rw [start_of_not_started autostart resp s hs]
    by_cases hp : s.state = .PROCESS
    · simp [ha, hno, setState, emit, record, hp]
    · simp [ha, hno, setState, emit, record, hp]
  refine ⟨e, fun a2 r2 => ?_⟩
  rw [e]
  have h2 := start_of_not_started a2 r2
    { s with
      state := .PROCESS
      trace := s.trace ++
        (if s.state = .PROCESS then [] else [.emit (.stateChanged .PROCESS)]) ++
        [.authCheck .start] } (fun h => by cases h)
  rw [h2]
  exact ⟨rfl, by simp⟩

/-- C20 at a fresh engine, `start(false)` and a body without `authContent`,
followed by a second `start(false)` on a body with it. -/
theorem start_manual_denied_stays_busy_witness :
    demo.state ≠ .STARTED ∧
    (authCheck .start (.resolved "<a href=/login>") (setState .PROCESS demo)).1 = 0 ∧
    (start (.bool false) (.resolved "<a href=/login>") demo).2.state = .PROCESS ∧
    (start (.bool false) (.resolved "<a href=/logout>")
      (start (.bool false) (.resolved "<a href=/login>") demo).2).1 ≠ .bool false :=
  ⟨by decide, by decide,
    by
      rw [(start_manual_denied_stays_busy demo (.bool false) (.resolved "<a href=/login>")
        (by decide) (Or.inl rfl) (by decide)).1],
    ((start_manual_denied_stays_busy demo (.bool false) (.resolved "<a href=/login>")
      (by decide) (Or.inl rfl) (by decide)).2 (.bool false)
      (.resolved "<a href=/logout>")).2⟩

end GiftSeeker
